import Mathlib

/-!
Verification of the CHIP-8 interpreter core (src/system.rs, src/system/opcode.rs)
against its natural-language specification.  The machine state, the per-opcode
bodies and the `tick` fetch/decode/execute step are embedded shallowly: bytes and
words are `Nat` with explicit `% 256` / `% 65536` where the Rust code performs
wrapping machine arithmetic, fixed arrays are `Nat → Nat` maps accessed through
the same bounds checks the Rust code performs, and fallible operations return
`Except`.  Since the Rust `tick` mutates `self` in place and may return an error
after partial mutation, the embedded `tick` returns the mutated state alongside
the error.  The two `unimplemented!` panic sites of the source (the unknown
opcode fall-through and the `BlockGetKey` opcode) are modelled by dedicated
divergence outcomes.
-/

set_option maxHeartbeats 1000000

namespace Chip8

/-- Error taxonomy of the interpreter (`SystemError` in src/system.rs).  The
source enum has no variant for unknown opcodes. -/
inductive SystemError where
  | programTooLarge
  | invalidMemoryAccess (addr : Nat)
  | invalidRegister (reg : Nat)
  | stackOverflow
  | stackUnderflow
  | invalidKey (key : Nat)
  | zeroInstruction
deriving DecidableEq, Repr

/-- Pointwise update of a finite map modelled as a function. -/
def updF (f : Nat → Nat) (k v : Nat) : Nat → Nat :=
  fun i => if i = k then v else f i

/-- General purpose registers `V0..VF`, index register `I` and program counter
(struct `Registers`). -/
structure Registers where
  reg : Nat → Nat
  index : Nat
  pc : Nat

/-- Delay and sound timers (struct `Timers`). -/
structure Timers where
  delay : Nat
  sound : Nat

/-- Call stack: sixteen 16-bit frames plus a stack pointer (struct `Stack`). -/
structure Stack where
  stack : Nat → Nat
  sp : Nat

/-- Sixteen key states, nonzero meaning pressed (struct `Keys`). -/
structure Keys where
  keys : Nat → Nat

/-- Reading a register: `self.reg.get(reg as usize)` succeeds exactly for
indices below 16 (`Registers::read`). -/
def Registers.read (rs : Registers) (r : Nat) : Except SystemError Nat :=
  if r < 16 then .ok (rs.reg r) else .error (.invalidRegister r)

/-- Writing a register, guarded by `reg > 15` (`Registers::write`). -/
def Registers.write (rs : Registers) (r v : Nat) : Except SystemError Registers :=
  if r > 15 then .error (.invalidRegister r)
  else .ok { rs with reg := updF rs.reg r v }

/-- In-place modification of a register returning an auxiliary value; mirrors
`Registers::with`, whose closure mutates the cell and returns `U`. -/
def Registers.withReg (rs : Registers) (r : Nat) (f : Nat → Nat × Nat) :
    Except SystemError (Registers × Nat) :=
  if r < 16 then
    let p := f (rs.reg r)
    .ok ({ rs with reg := updF rs.reg r p.1 }, p.2)
  else .error (.invalidRegister r)

/-- Register `VF` used as the flag register (`Registers::carry_set`). -/
def Registers.carry_set (rs : Registers) (v : Nat) : Registers :=
  { rs with reg := updF rs.reg 15 v }

/-- Key lookup: `self.keys.get(key as usize)` succeeds exactly for indices
below 16 (`Keys::pressed`); a key is pressed when its cell is nonzero. -/
def Keys.pressed (ks : Keys) (k : Nat) : Except SystemError Bool :=
  if k < 16 then .ok (ks.keys k != 0) else .error (.invalidKey k)

/-- The whole machine (struct `System`): 4096 memory bytes, the 64x32 packed
framebuffer (256 bytes), registers, timers, stack and keys. -/
structure System where
  mem : Nat → Nat
  screen : Nat → Nat
  registers : Registers
  timers : Timers
  stack : Stack
  keys : Keys

/-- Reading one memory byte, bounds-checked against 4096 (`System::read_mem`). -/
def readMem (s : System) (ptr : Nat) : Except SystemError Nat :=
  if ptr < 4096 then .ok (s.mem ptr) else .error (.invalidMemoryAccess ptr)

/-- Writing one memory byte, bounds-checked against 4096 (`System::write_mem`). -/
def writeMem (s : System) (ptr data : Nat) : Except SystemError System :=
  if ptr < 4096 then .ok { s with mem := updF s.mem ptr data }
  else .error (.invalidMemoryAccess ptr)

/-- Big-endian 16-bit read; both byte fetches report the failing address as
`ptr`, as in `System::read_mem_pair`. -/
def readMemPair (s : System) (ptr : Nat) : Except SystemError Nat :=
  if ptr < 4096 then
    if ptr + 1 < 4096 then .ok ((s.mem ptr) <<< 8 ||| s.mem (ptr + 1))
    else .error (.invalidMemoryAccess ptr)
  else .error (.invalidMemoryAccess ptr)

/-- Instruction fetch at the current program counter (`System::fetch_instruction`). -/
def fetch_instruction (s : System) : Except SystemError Nat :=
  readMemPair s s.registers.pc

/-- Result of one `tick`.  The Rust function mutates `self` and returns
`Result<(), SystemError>`; we return the final state, pair errors with the
partially mutated state, and give the two `unimplemented!` panic sites their
own outcomes. -/
inductive TickResult where
  | ok (s : System)
  | err (e : SystemError) (s : System)
  | panicBlockGetKey
  | panicUnknownOpcode (code : Nat)

/-- Intermediate outcome of an opcode body that falls through to the common
`pc += 2` (an error carries the partially mutated state). -/
abbrev Step := Except (SystemError × System) System

/-- The common `self.registers.pc += 2` performed after non-jumping bodies. -/
def advancePC (s : System) : System :=
  { s with registers := { s.registers with pc := (s.registers.pc + 2) % 65536 } }

/-- Wraps a fall-through body result with the trailing `pc += 2`. -/
def andAdvance : Step → TickResult
  | .error (e, t) => .err e t
  | .ok t => .ok (advancePC t)

/-- Opcode argument X: `(code & 0x0F00) >> 8` (`Opcode::get_arg1_u8`, `get_arg2`). -/
def argX (w : Nat) : Nat := (w &&& 0x0F00) >>> 8

/-- Opcode argument Y: `(code & 0x00F0) >> 4`. -/
def argY (w : Nat) : Nat := (w &&& 0x00F0) >>> 4

/-- Opcode argument KK: `code & 0x00FF`. -/
def argKK (w : Nat) : Nat := w &&& 0x00FF

/-- Opcode argument NNN: `code & 0x0FFF` (`Opcode::get_arg1_u16`). -/
def argNNN (w : Nat) : Nat := w &&& 0x0FFF

/-- Opcode argument N: `code & 0x000F`. -/
def argN (w : Nat) : Nat := w &&& 0x000F

/-- Body of `ClearScreen` (00E0): zero the framebuffer. -/
def bodyClearScreen (s : System) : Step :=
  .ok { s with screen := fun _ => 0 }

/-- Body of `Return` (00EE): underflow check, pop, set `pc` to the popped
frame; the outer `pc += 2` still applies. -/
def bodyReturn (s : System) : Step :=
  if s.stack.sp = 0 then .error (.stackUnderflow, s)
  else .ok { s with
    stack := { s.stack with sp := s.stack.sp - 1 },
    registers := { s.registers with pc := s.stack.stack (s.stack.sp - 1) } }

/-- Branch of `Call` (2NNN): overflow check, push `pc`, jump; returns from
`tick` directly so the outer `pc += 2` is suppressed. -/
def branchCall (s : System) (addr : Nat) : TickResult :=
  if 16 ≤ s.stack.sp then .err .stackOverflow s
  else .ok { s with
    stack := { stack := updF s.stack.stack s.stack.sp s.registers.pc,
               sp := s.stack.sp + 1 },
    registers := { s.registers with pc := addr } }

/-- Body of `SkipIfEq` (3XKK). -/
def bodySkipIfEq (s : System) (r kk : Nat) : Step :=
  match s.registers.read r with
  | .error e => .error (e, s)
  | .ok v =>
    if v = kk then
      .ok { s with registers := { s.registers with pc := (s.registers.pc + 2) % 65536 } }
    else .ok s

/-- Body of `SkipIfNeq` (4XKK). -/
def bodySkipIfNeq (s : System) (r kk : Nat) : Step :=
  match s.registers.read r with
  | .error e => .error (e, s)
  | .ok v =>
    if v ≠ kk then
      .ok { s with registers := { s.registers with pc := (s.registers.pc + 2) % 65536 } }
    else .ok s

/-- Body of `SkipIfRegEq` (5XY0). -/
def bodySkipIfRegEq (s : System) (r1 r2 : Nat) : Step :=
  match s.registers.read r1 with
  | .error e => .error (e, s)
  | .ok v1 =>
    match s.registers.read r2 with
    | .error e => .error (e, s)
    | .ok v2 =>
      if v1 = v2 then
        .ok { s with registers := { s.registers with pc := (s.registers.pc + 2) % 65536 } }
      else .ok s

/-- Body of `SkipIfRegNeq` (9XY0). -/
def bodySkipIfRegNeq (s : System) (r1 r2 : Nat) : Step :=
  match s.registers.read r1 with
  | .error e => .error (e, s)
  | .ok v1 =>
    match s.registers.read r2 with
    | .error e => .error (e, s)
    | .ok v2 =>
      if v1 ≠ v2 then
        .ok { s with registers := { s.registers with pc := (s.registers.pc + 2) % 65536 } }
      else .ok s

/-- Body of `SetReg` (6XKK). -/
def bodySetReg (s : System) (r kk : Nat) : Step :=
  match s.registers.write r kk with
  | .error e => .error (e, s)
  | .ok rs => .ok { s with registers := rs }

/-- Body of `SAddReg` (7XKK): wrapping add, flag untouched. -/
def bodySAddReg (s : System) (r kk : Nat) : Step :=
  match s.registers.withReg r (fun v => ((v + kk) % 256, 0)) with
  | .error e => .error (e, s)
  | .ok (rs, _u) => .ok { s with registers := rs }

/-- Body of `MovReg` (8XY0). -/
def bodyMovReg (s : System) (r1 r2 : Nat) : Step :=
  match s.registers.read r2 with
  | .error e => .error (e, s)
  | .ok v =>
    match s.registers.write r1 v with
    | .error e => .error (e, s)
    | .ok rs => .ok { s with registers := rs }

/-- Body of `OrReg` (8XY1). -/
def bodyOrReg (s : System) (r1 r2 : Nat) : Step :=
  match s.registers.read r2 with
  | .error e => .error (e, s)
  | .ok v =>
    match s.registers.withReg r1 (fun v1 => (v1 ||| v, 0)) with
    | .error e => .error (e, s)
    | .ok (rs, _u) => .ok { s with registers := rs }

/-- Body of `AndReg` (8XY2). -/
def bodyAndReg (s : System) (r1 r2 : Nat) : Step :=
  match s.registers.read r2 with
  | .error e => .error (e, s)
  | .ok v =>
    match s.registers.withReg r1 (fun v1 => (v1 &&& v, 0)) with
    | .error e => .error (e, s)
    | .ok (rs, _u) => .ok { s with registers := rs }

/-- Body of `XorReg` (8XY3). -/
def bodyXorReg (s : System) (r1 r2 : Nat) : Step :=
  match s.registers.read r2 with
  | .error e => .error (e, s)
  | .ok v =>
    match s.registers.withReg r1 (fun v1 => (v1 ^^^ v, 0)) with
    | .error e => .error (e, s)
    | .ok (rs, _u) => .ok { s with registers := rs }

/-- Body of `AddReg` (8XY4): wrapping add, then `VF := overflow` last. -/
def bodyAddReg (s : System) (r1 r2 : Nat) : Step :=
  match s.registers.read r2 with
  | .error e => .error (e, s)
  | .ok v =>
    match s.registers.withReg r1
        (fun v1 => ((v1 + v) % 256, if 256 ≤ v1 + v then 1 else 0)) with
    | .error e => .error (e, s)
    | .ok (rs, carry) => .ok { s with registers := rs.carry_set carry }

/-- Body of `SubReg` (8XY5): wrapping sub, then `VF := !borrow` last. -/
def bodySubReg (s : System) (r1 r2 : Nat) : Step :=
  match s.registers.read r2 with
  | .error e => .error (e, s)
  | .ok v =>
    match s.registers.withReg r1
        (fun v1 => ((v1 + 256 - v) % 256, if v1 < v then 0 else 1)) with
    | .error e => .error (e, s)
    | .ok (rs, carry) => .ok { s with registers := rs.carry_set carry }

/-- Body of `RShiftReg` (8XY6): `VF := Vx & 1`, `Vx := Vx >> 1`. -/
def bodyRShiftReg (s : System) (r : Nat) : Step :=
  match s.registers.withReg r (fun v => (v >>> 1, v &&& 1)) with
  | .error e => .error (e, s)
  | .ok (rs, carry) => .ok { s with registers := rs.carry_set carry }

/-- Body of `RSubReg` (8XY7): `Vx := Vy - Vx` wrapping, `VF := !borrow`. -/
def bodyRSubReg (s : System) (r1 r2 : Nat) : Step :=
  match s.registers.read r2 with
  | .error e => .error (e, s)
  | .ok v =>
    match s.registers.withReg r1
        (fun v1 => ((v + 256 - v1) % 256, if v < v1 then 0 else 1)) with
    | .error e => .error (e, s)
    | .ok (rs, carry) => .ok { s with registers := rs.carry_set carry }

/-- Body of `LShiftReg` (8XYE): `VF := Vx >> 7 & 1`, `Vx := Vx << 1` wrapping. -/
def bodyLShiftReg (s : System) (r : Nat) : Step :=
  match s.registers.withReg r (fun v => ((v <<< 1) % 256, (v >>> 7) &&& 1)) with
  | .error e => .error (e, s)
  | .ok (rs, carry) => .ok { s with registers := rs.carry_set carry }

/-- Body of `SetIndex` (ANNN). -/
def bodySetIndex (s : System) (addr : Nat) : Step :=
  .ok { s with registers := { s.registers with index := addr } }

/-- Branch of `JumpPlus` (BNNN): `pc := V0 + addr` as 16-bit arithmetic, with
no truncation of the sum to 12 bits; returns directly, suppressing `pc += 2`. -/
def branchJumpPlus (s : System) (addr : Nat) : TickResult :=
  match s.registers.read 0 with
  | .error e => .err e s
  | .ok v =>
    .ok { s with registers := { s.registers with pc := (v + addr) % 65536 } }

/-- Body of `Rand` (CXKK); the random byte is an explicit parameter. -/
def bodyRand (s : System) (rnd r kk : Nat) : Step :=
  match s.registers.write r (rnd &&& kk) with
  | .error e => .error (e, s)
  | .ok rs => .ok { s with registers := rs }

/-- Body of `AddIndex` (FX1E): `I += Vx` in 16-bit arithmetic. -/
def bodyAddIndex (s : System) (r : Nat) : Step :=
  match s.registers.read r with
  | .error e => .error (e, s)
  | .ok v =>
    .ok { s with registers := { s.registers with index := (s.registers.index + v) % 65536 } }

/-- Body of `SkipIfKeyPressed` (EX9E).  The source passes the opcode nibble
itself to `Keys::pressed`; register `Vx` is never read. -/
def bodySkipIfKeyPressed (s : System) (key : Nat) : Step :=
  match s.keys.pressed key with
  | .error e => .error (e, s)
  | .ok b =>
    if b then
      .ok { s with registers := { s.registers with pc := (s.registers.pc + 2) % 65536 } }
    else .ok s

/-- Body of `SkipIfKeyNotPressed` (EXA1); same nibble-as-key behaviour. -/
def bodySkipIfKeyNotPressed (s : System) (key : Nat) : Step :=
  match s.keys.pressed key with
  | .error e => .error (e, s)
  | .ok b =>
    if b then .ok s
    else
      .ok { s with registers := { s.registers with pc := (s.registers.pc + 2) % 65536 } }

/-- Body of `GetDelay` (FX07). -/
def bodyGetDelay (s : System) (r : Nat) : Step :=
  match s.registers.write r s.timers.delay with
  | .error e => .error (e, s)
  | .ok rs => .ok { s with registers := rs }

/-- Body of `SetDelay` (FX15). -/
def bodySetDelay (s : System) (r : Nat) : Step :=
  match s.registers.read r with
  | .error e => .error (e, s)
  | .ok v => .ok { s with timers := { s.timers with delay := v } }

/-- Body of `SetSound` (FX18). -/
def bodySetSound (s : System) (r : Nat) : Step :=
  match s.registers.read r with
  | .error e => .error (e, s)
  | .ok v => .ok { s with timers := { s.timers with sound := v } }

/-- Body of `GetSprite` (FX29): `I := 5 * Vx` in 16-bit arithmetic; the source
applies no `& 0x0F` mask to the register value. -/
def bodyGetSprite (s : System) (r : Nat) : Step :=
  match s.registers.read r with
  | .error e => .error (e, s)
  | .ok v =>
    .ok { s with registers := { s.registers with index := (5 * v) % 65536 } }

/-- Body of `BinCoded` (FX33): three sequential bounds-checked byte writes;
a failing write surfaces after the earlier ones already mutated memory. -/
def bodyBinCoded (s : System) (r : Nat) : Step :=
  match s.registers.read r with
  | .error e => .error (e, s)
  | .ok v =>
    let first := v / 100
    let second := v % 100 / 10
    let third := v % 100 % 10
    match writeMem s s.registers.index first with
    | .error e => .error (e, s)
    | .ok s1 =>
      match writeMem s1 ((s1.registers.index + 1) % 65536) second with
      | .error e => .error (e, s1)
      | .ok s2 =>
        match writeMem s2 ((s2.registers.index + 2) % 65536) third with
        | .error e => .error (e, s2)
        | .ok s3 => .ok s3

/-- Loop of `RegDump` (FX55): `for i in 0..=r` write `Vi` to `mem[I + i]`. -/
def regDumpFrom (s : System) (r i : Nat) : Step :=
  if _h : i ≤ r then
    match s.registers.read i with
    | .error e => .error (e, s)
    | .ok v =>
      match writeMem s ((s.registers.index + i) % 65536) v with
      | .error e => .error (e, s)
      | .ok s1 => regDumpFrom s1 r (i + 1)
  else .ok s
termination_by r + 1 - i

/-- Loop of `RegLoad` (FX65): `for i in 0..=r` load `Vi` from `mem[I + i]`. -/
def regLoadFrom (s : System) (r i : Nat) : Step :=
  if _h : i ≤ r then
    match readMem s ((s.registers.index + i) % 65536) with
    | .error e => .error (e, s)
    | .ok v =>
      match s.registers.write i v with
      | .error e => .error (e, s)
      | .ok rs => regLoadFrom { s with registers := rs } r (i + 1)
  else .ok s
termination_by r + 1 - i

/-- XOR-blit of a single pixel (`System::draw`): returns the updated system and
whether a set target bit was overwritten by a set source bit, observing the
target bit before the XOR. -/
def System.draw (s : System) (x y : Nat) (value : Bool) : System × Bool :=
  let xBit := x % 8
  let xByte := x / 8
  let idx := y * 64 / 8 + xByte
  if idx < 256 then
    let currentByte := s.screen idx
    let currentBit := (currentByte >>> (7 - xBit)) &&& 1 != 0
    let newByte := currentByte ^^^ (value.toNat <<< (7 - xBit))
    ({ s with screen := updF s.screen idx newByte }, currentBit && value)
  else (s, false)

/-- Inner pixel loop of the `Draw` body: `for pixel in 0..8`. -/
def drawPixels (x y byte value : Nat) (p : Nat) (s : System) (carry : Bool) :
    System × Bool :=
  if _h : p < 8 then
    let r := s.draw ((x + p) % 64) ((y + byte) % 32) ((value >>> (7 - p)) &&& 1 != 0)
    drawPixels x y byte value (p + 1) r.1 (carry || r.2)
  else (s, carry)
termination_by 8 - p

/-- Outer row loop of the `Draw` body: `for byte in 0..height`, each row read
from `mem[I + byte]` with a bounds check. -/
def drawRows (x y height : Nat) (b : Nat) (s : System) (carry : Bool) :
    Except (SystemError × System) (System × Bool) :=
  if _h : b < height then
    match readMem s ((s.registers.index + b) % 65536) with
    | .error e => .error (e, s)
    | .ok value =>
      let r := drawPixels x y b value 0 s carry
      drawRows x y height (b + 1) r.1 r.2
  else .ok (s, carry)
termination_by height - b

/-- Body of `Draw` (DXYN): read the two coordinate registers, blit `height`
rows, then set `VF` to the collision flag. -/
def bodyDraw (s : System) (rx ry height : Nat) : Step :=
  match s.registers.read rx with
  | .error e => .error (e, s)
  | .ok x =>
    match s.registers.read ry with
    | .error e => .error (e, s)
    | .ok y =>
      match drawRows x y height 0 s false with
      | .error (e, t) => .error (e, t)
      | .ok (t, carry) =>
        .ok { t with registers := t.registers.carry_set carry.toNat }

/-- Decode and execute an already fetched word, mirroring the `match_opcodes!`
if-chain in `System::tick`: each family test is tried in source order, the
fall-through is the `unimplemented!` panic, and fall-through bodies get the
common `pc += 2` via `andAdvance`. -/
def tickExec (rnd : Nat) (s : System) (w : Nat) : TickResult :=
  if w = 0 then .err .zeroInstruction s
  else if w = 0x00E0 then andAdvance (bodyClearScreen s)
  else if w = 0x00EE then andAdvance (bodyReturn s)
  else if w &&& 0xF000 = 0x1000 then
    .ok { s with registers := { s.registers with pc := argNNN w } }
  else if w &&& 0xF000 = 0x2000 then branchCall s (argNNN w)
  else if w &&& 0xF000 = 0x3000 then andAdvance (bodySkipIfEq s (argX w) (argKK w))
  else if w &&& 0xF000 = 0x4000 then andAdvance (bodySkipIfNeq s (argX w) (argKK w))
  else if w &&& 0xF00F = 0x5000 then andAdvance (bodySkipIfRegEq s (argX w) (argY w))
  else if w &&& 0xF00F = 0x9000 then andAdvance (bodySkipIfRegNeq s (argX w) (argY w))
  else if w &&& 0xF000 = 0x6000 then andAdvance (bodySetReg s (argX w) (argKK w))
  else if w &&& 0xF000 = 0x7000 then andAdvance (bodySAddReg s (argX w) (argKK w))
  else if w &&& 0xF00F = 0x8000 then andAdvance (bodyMovReg s (argX w) (argY w))
  else if w &&& 0xF00F = 0x8001 then andAdvance (bodyOrReg s (argX w) (argY w))
  else if w &&& 0xF00F = 0x8002 then andAdvance (bodyAndReg s (argX w) (argY w))
  else if w &&& 0xF00F = 0x8003 then andAdvance (bodyXorReg s (argX w) (argY w))
  else if w &&& 0xF00F = 0x8004 then andAdvance (bodyAddReg s (argX w) (argY w))
  else if w &&& 0xF00F = 0x8005 then andAdvance (bodySubReg s (argX w) (argY w))
  else if w &&& 0xF00F = 0x8006 then andAdvance (bodyRShiftReg s (argX w))
  else if w &&& 0xF00F = 0x8007 then andAdvance (bodyRSubReg s (argX w) (argY w))
  else if w &&& 0xF00F = 0x800E then andAdvance (bodyLShiftReg s (argX w))
  else if w &&& 0xF000 = 0xA000 then andAdvance (bodySetIndex s (argNNN w))
  else if w &&& 0xF000 = 0xB000 then branchJumpPlus s (argNNN w)
  else if w &&& 0xF000 = 0xC000 then andAdvance (bodyRand s rnd (argX w) (argKK w))
  else if w &&& 0xF0FF = 0xF01E then andAdvance (bodyAddIndex s (argX w))
  else if w &&& 0xF0FF = 0xE09E then andAdvance (bodySkipIfKeyPressed s (argX w))
  else if w &&& 0xF0FF = 0xE0A1 then andAdvance (bodySkipIfKeyNotPressed s (argX w))
  else if w &&& 0xF0FF = 0xF007 then andAdvance (bodyGetDelay s (argX w))
  else if w &&& 0xF0FF = 0xF00A then .panicBlockGetKey
  else if w &&& 0xF0FF = 0xF015 then andAdvance (bodySetDelay s (argX w))
  else if w &&& 0xF0FF = 0xF018 then andAdvance (bodySetSound s (argX w))
  else if w &&& 0xF0FF = 0xF029 then andAdvance (bodyGetSprite s (argX w))
  else if w &&& 0xF0FF = 0xF033 then andAdvance (bodyBinCoded s (argX w))
  else if w &&& 0xF0FF = 0xF055 then andAdvance (regDumpFrom s (argX w) 0)
  else if w &&& 0xF0FF = 0xF065 then andAdvance (regLoadFrom s (argX w) 0)
  else if w &&& 0xF000 = 0xD000 then andAdvance (bodyDraw s (argX w) (argY w) (argN w))
  else .panicUnknownOpcode w

/-- One interpreter step (`System::tick`): fetch the word at `pc`, reject the
zero word, decode and execute. -/
def tick (rnd : Nat) (s : System) : TickResult :=
  match fetch_instruction s with
  | .error e => .err e s
  | .ok w => tickExec rnd s w

/-- ROM ingestion (`System::load`): reject byte streams larger than the
3584-byte program area, else copy the stream into memory at 0x200. -/
def load (s : System) (buf : List Nat) : Except SystemError System :=
  if buf.length > 4096 - 0x200 then .error .programTooLarge
  else .ok { s with mem := fun i =>
    if 0x200 ≤ i ∧ i < 0x200 + buf.length then buf.getD (i - 0x200) 0 else s.mem i }

/-- State carried by a non-diverging tick outcome (the final state on success,
the partially mutated state on error). -/
def TickResult.stateOf : TickResult → Option System
  | .ok s => some s
  | .err _ s => some s
  | _ => none

/-- Error carried by a failing tick outcome. -/
def TickResult.errOf : TickResult → Option SystemError
  | .err e _ => some e
  | _ => none

/-- Program counter of the resulting state, when there is one. -/
def TickResult.pcOf (r : TickResult) : Option Nat :=
  r.stateOf.map fun s => s.registers.pc

/-- Index register of the resulting state, when there is one. -/
def TickResult.idxOf (r : TickResult) : Option Nat :=
  r.stateOf.map fun s => s.registers.index

/-- One memory byte of the resulting state, when there is one. -/
def TickResult.memOf (r : TickResult) (i : Nat) : Option Nat :=
  r.stateOf.map fun s => s.mem i

/-- One register of the resulting state, when there is one. -/
def TickResult.regOf (r : TickResult) (i : Nat) : Option Nat :=
  r.stateOf.map fun s => s.registers.reg i

/-- Extracts the success state, with a fallback for the other outcomes. -/
def TickResult.okState (r : TickResult) (d : System) : System :=
  match r with
  | .ok s => s
  | _ => d

/-- Registers in the default state: all zero, `pc` at 0x200 (`PROGRAM_START`). -/
def zeroRegisters : Registers :=
  { reg := fun _ => 0, index := 0, pc := 0x200 }

/-- A blank machine: zero memory, screen, stack, keys and timers, `pc` at
0x200.  The font table is irrelevant to the claims and left zero. -/
def sys0 : System :=
  { mem := fun _ => 0
    screen := fun _ => 0
    registers := zeroRegisters
    timers := { delay := 0, sound := 0 }
    stack := { stack := fun _ => 0, sp := 0 }
    keys := { keys := fun _ => 0 } }

/-- Stores one byte into the modelled memory. -/
def setMem (s : System) (a v : Nat) : System :=
  { s with mem := updF s.mem a v }

/-- Stores one register value. -/
def setReg (s : System) (r v : Nat) : System :=
  { s with registers := { s.registers with reg := updF s.registers.reg r v } }

/-- Sets the index register. -/
def setIdx (s : System) (v : Nat) : System :=
  { s with registers := { s.registers with index := v } }

/-- Sets one key state. -/
def setKey (s : System) (k v : Nat) : System :=
  { s with keys := { keys := updF s.keys.keys k v } }

/-- Fetched word at the current program counter, when the fetch succeeds. -/
def fetchWord (s : System) : Option Nat :=
  match fetch_instruction s with
  | .ok w => some w
  | .error _ => none

lemma tick_eq_exec (rnd : Nat) {s : System} {w : Nat} (h : fetchWord s = some w) :
    tick rnd s = tickExec rnd s w := by
  unfold fetchWord at h
  unfold tick
  cases hm : fetch_instruction s with
  | error e => rw [hm] at h; simp at h
  | ok v => rw [hm] at h; simp at h; rw [h]

lemma maskF000_of_F00F {w v : Nat} (h : w &&& 0xF00F = v) :
    w &&& 0xF000 = v &&& 0xF000 := by
  rw [← h, Nat.and_assoc]
  congr 1

lemma maskF000_of_F0FF {w v : Nat} (h : w &&& 0xF0FF = v) :
    w &&& 0xF000 = v &&& 0xF000 := by
  rw [← h, Nat.and_assoc]
  congr 1

lemma maskF00F_of_F0FF {w v : Nat} (h : w &&& 0xF0FF = v) :
    w &&& 0xF00F = v &&& 0xF00F := by
  rw [← h, Nat.and_assoc]
  congr 1

lemma ne_f00f_of_f000 {w a : Nat} (hw : w &&& 0xF000 = a) {v : Nat}
    (hva : ¬ v &&& 0xF000 = a) : ¬ w &&& 0xF00F = v :=
  fun h => hva (by rw [← maskF000_of_F00F h]; exact hw)

lemma ne_f0ff_of_f000 {w a : Nat} (hw : w &&& 0xF000 = a) {v : Nat}
    (hva : ¬ v &&& 0xF000 = a) : ¬ w &&& 0xF0FF = v :=
  fun h => hva (by rw [← maskF000_of_F0FF h]; exact hw)

lemma ne_zero_of_f000 {w a : Nat} (hw : w &&& 0xF000 = a) (ha : a ≠ 0) : ¬ w = 0 := by
  rintro rfl
  simp at hw
  exact ha hw.symm

lemma ne_lit_of_f000 {w a : Nat} (hw : w &&& 0xF000 = a) {v : Nat}
    (hva : ¬ v &&& 0xF000 = a) : ¬ w = v := by
  rintro rfl
  exact hva hw

lemma ne_of_eq_lit {x a b : Nat} (hx : x = a) (hab : ¬ a = b) : ¬ x = b :=
  fun h => hab (hx.symm.trans h)

lemma tickExec_call {w : Nat} (rnd : Nat) (s : System) (hw : w &&& 0xF000 = 0x2000) :
    tickExec rnd s w = branchCall s (argNNN w) := by
  unfold tickExec
  rw [if_neg (ne_zero_of_f000 hw (by decide)),
    if_neg (ne_lit_of_f000 hw (by decide)), if_neg (ne_lit_of_f000 hw (by decide)),
    if_neg (ne_of_eq_lit hw (by decide)), if_pos hw]

lemma tickExec_jumpPlus {w : Nat} (rnd : Nat) (s : System) (hw : w &&& 0xF000 = 0xB000) :
    tickExec rnd s w = branchJumpPlus s (argNNN w) := by
  unfold tickExec
  rw [if_neg (ne_zero_of_f000 hw (by decide)),
    if_neg (ne_lit_of_f000 hw (by decide)), if_neg (ne_lit_of_f000 hw (by decide)),
    if_neg (ne_of_eq_lit hw (by decide)),
    if_neg (ne_of_eq_lit hw (by decide)),
    if_neg (ne_of_eq_lit hw (by decide)),
    if_neg (ne_of_eq_lit hw (by decide)),
    if_neg (ne_f00f_of_f000 hw (by decide)), if_neg (ne_f00f_of_f000 hw (by decide)),
    if_neg (ne_of_eq_lit hw (by decide)),
    if_neg (ne_of_eq_lit hw (by decide)),
    if_neg (ne_f00f_of_f000 hw (by decide)), if_neg (ne_f00f_of_f000 hw (by decide)),
    if_neg (ne_f00f_of_f000 hw (by decide)), if_neg (ne_f00f_of_f000 hw (by decide)),
    if_neg (ne_f00f_of_f000 hw (by decide)), if_neg (ne_f00f_of_f000 hw (by decide)),
    if_neg (ne_f00f_of_f000 hw (by decide)), if_neg (ne_f00f_of_f000 hw (by decide)),
    if_neg (ne_f00f_of_f000 hw (by decide)),
    if_neg (ne_of_eq_lit hw (by decide)), if_pos hw]

lemma tickExec_getSprite {w : Nat} (rnd : Nat) (s : System) (hw : w &&& 0xF0FF = 0xF029) :
    tickExec rnd s w = andAdvance (bodyGetSprite s (argX w)) := by
  have h000 : w &&& 0xF000 = 0xF000 := maskF000_of_F0FF hw
  have h00f : w &&& 0xF00F = 0xF009 := maskF00F_of_F0FF hw
  unfold tickExec
  rw [if_neg (ne_zero_of_f000 h000 (by decide)),
    if_neg (ne_lit_of_f000 h000 (by decide)), if_neg (ne_lit_of_f000 h000 (by decide)),
    if_neg (ne_of_eq_lit h000 (by decide)),
    if_neg (ne_of_eq_lit h000 (by decide)),
    if_neg (ne_of_eq_lit h000 (by decide)),
    if_neg (ne_of_eq_lit h000 (by decide)),
    if_neg (ne_of_eq_lit h00f (by decide)),
    if_neg (ne_of_eq_lit h00f (by decide)),
    if_neg (ne_of_eq_lit h000 (by decide)),
    if_neg (ne_of_eq_lit h000 (by decide)),
    if_neg (ne_of_eq_lit h00f (by decide)),
    if_neg (ne_of_eq_lit h00f (by decide)),
    if_neg (ne_of_eq_lit h00f (by decide)),
    if_neg (ne_of_eq_lit h00f (by decide)),
    if_neg (ne_of_eq_lit h00f (by decide)),
    if_neg (ne_of_eq_lit h00f (by decide)),
    if_neg (ne_of_eq_lit h00f (by decide)),
    if_neg (ne_of_eq_lit h00f (by decide)),
    if_neg (ne_of_eq_lit h00f (by decide)),
    if_neg (ne_of_eq_lit h000 (by decide)),
    if_neg (ne_of_eq_lit h000 (by decide)),
    if_neg (ne_of_eq_lit h000 (by decide)),
    if_neg (ne_of_eq_lit hw (by decide)),
    if_neg (ne_of_eq_lit hw (by decide)),
    if_neg (ne_of_eq_lit hw (by decide)),
    if_neg (ne_of_eq_lit hw (by decide)),
    if_neg (ne_of_eq_lit hw (by decide)),
    if_neg (ne_of_eq_lit hw (by decide)),
    if_neg (ne_of_eq_lit hw (by decide)),
    if_pos hw]

lemma tickExec_draw {w : Nat} (rnd : Nat) (s : System) (hw : w &&& 0xF000 = 0xD000) :
    tickExec rnd s w = andAdvance (bodyDraw s (argX w) (argY w) (argN w)) := by
  unfold tickExec
  rw [if_neg (ne_zero_of_f000 hw (by decide)),
    if_neg (ne_lit_of_f000 hw (by decide)), if_neg (ne_lit_of_f000 hw (by decide)),
    if_neg (ne_of_eq_lit hw (by decide)),
    if_neg (ne_of_eq_lit hw (by decide)),
    if_neg (ne_of_eq_lit hw (by decide)),
    if_neg (ne_of_eq_lit hw (by decide)),
    if_neg (ne_f00f_of_f000 hw (by decide)), if_neg (ne_f00f_of_f000 hw (by decide)),
    if_neg (ne_of_eq_lit hw (by decide)),
    if_neg (ne_of_eq_lit hw (by decide)),
    if_neg (ne_f00f_of_f000 hw (by decide)), if_neg (ne_f00f_of_f000 hw (by decide)),
    if_neg (ne_f00f_of_f000 hw (by decide)), if_neg (ne_f00f_of_f000 hw (by decide)),
    if_neg (ne_f00f_of_f000 hw (by decide)), if_neg (ne_f00f_of_f000 hw (by decide)),
    if_neg (ne_f00f_of_f000 hw (by decide)), if_neg (ne_f00f_of_f000 hw (by decide)),
    if_neg (ne_f00f_of_f000 hw (by decide)),
    if_neg (ne_of_eq_lit hw (by decide)),
    if_neg (ne_of_eq_lit hw (by decide)),
    if_neg (ne_of_eq_lit hw (by decide)),
    if_neg (ne_f0ff_of_f000 hw (by decide)), if_neg (ne_f0ff_of_f000 hw (by decide)),
    if_neg (ne_f0ff_of_f000 hw (by decide)), if_neg (ne_f0ff_of_f000 hw (by decide)),
    if_neg (ne_f0ff_of_f000 hw (by decide)), if_neg (ne_f0ff_of_f000 hw (by decide)),
    if_neg (ne_f0ff_of_f000 hw (by decide)), if_neg (ne_f0ff_of_f000 hw (by decide)),
    if_neg (ne_f0ff_of_f000 hw (by decide)), if_neg (ne_f0ff_of_f000 hw (by decide)),
    if_neg (ne_f0ff_of_f000 hw (by decide)),
    if_pos hw]

lemma argX_le (w : Nat) : argX w ≤ 15 := by
  unfold argX
  rw [Nat.shiftRight_eq_div_pow]
  exact Nat.le_trans (Nat.div_le_div_right Nat.and_le_right) (by norm_num)

lemma argY_le (w : Nat) : argY w ≤ 15 := by
  unfold argY
  rw [Nat.shiftRight_eq_div_pow]
  exact Nat.le_trans (Nat.div_le_div_right Nat.and_le_right) (by norm_num)

lemma argN_le (w : Nat) : argN w ≤ 15 := Nat.and_le_right

lemma read_lt (rs : Registers) {r : Nat} (h : r < 16) :
    rs.read r = .ok (rs.reg r) := if_pos h

lemma write_lt (rs : Registers) {r v : Nat} (h : r < 16) :
    rs.write r v = .ok { rs with reg := updF rs.reg r v } := if_neg (by omega)

lemma withReg_lt (rs : Registers) {r : Nat} {f : Nat → Nat × Nat} (h : r < 16) :
    rs.withReg r f = .ok ({ rs with reg := updF rs.reg r (f (rs.reg r)).1 },
      (f (rs.reg r)).2) := if_pos h

lemma pressed_lt (ks : Keys) {k : Nat} (h : k < 16) :
    ks.pressed k = .ok (ks.keys k != 0) := if_pos h

/-- Concrete machine for C1: `EX9E` with X = 4, register `V4 = 0`, key 4
pressed, key 0 released. -/
def c1sys : System :=
  setKey (setMem (setMem sys0 0x200 0xE4) 0x201 0x9E) 4 1

/-- C1, code_bug record: executing `E49E` (SKP V4) with `V4 = 0`, key 0
released and key 4 pressed, the interpreter skips (final PC 0x204): the tested
key is the opcode nibble X = 4, not the value of register `V4`; per the claim
the key `V4 & 0x0F = 0` is not pressed, so no skip should occur. -/
theorem skp_tests_nibble_not_vx :
    TickResult.pcOf (tick 0 c1sys) = some 0x204 ∧
    c1sys.registers.reg 4 = 0 ∧ c1sys.keys.keys 0 = 0 ∧ c1sys.keys.keys 4 = 1 := by
  decide

/-- Family tests of the decoder, in the exact order `System::tick` tries them
(`Opcode::cmp` masks). -/
def matchesFamily (w : Nat) : Bool :=
  w == 0x00E0 || w == 0x00EE ||
  w &&& 0xF000 == 0x1000 || w &&& 0xF000 == 0x2000 ||
  w &&& 0xF000 == 0x3000 || w &&& 0xF000 == 0x4000 ||
  w &&& 0xF00F == 0x5000 || w &&& 0xF00F == 0x9000 ||
  w &&& 0xF000 == 0x6000 || w &&& 0xF000 == 0x7000 ||
  w &&& 0xF00F == 0x8000 || w &&& 0xF00F == 0x8001 ||
  w &&& 0xF00F == 0x8002 || w &&& 0xF00F == 0x8003 ||
  w &&& 0xF00F == 0x8004 || w &&& 0xF00F == 0x8005 ||
  w &&& 0xF00F == 0x8006 || w &&& 0xF00F == 0x8007 ||
  w &&& 0xF00F == 0x800E ||
  w &&& 0xF000 == 0xA000 || w &&& 0xF000 == 0xB000 || w &&& 0xF000 == 0xC000 ||
  w &&& 0xF0FF == 0xF01E || w &&& 0xF0FF == 0xE09E || w &&& 0xF0FF == 0xE0A1 ||
  w &&& 0xF0FF == 0xF007 || w &&& 0xF0FF == 0xF00A || w &&& 0xF0FF == 0xF015 ||
  w &&& 0xF0FF == 0xF018 || w &&& 0xF0FF == 0xF029 || w &&& 0xF0FF == 0xF033 ||
  w &&& 0xF0FF == 0xF055 || w &&& 0xF0FF == 0xF065 ||
  w &&& 0xF000 == 0xD000

/-- Concrete machine for C2: word `0x5001` (no family matches it) at the
program counter. -/
def c2sys : System :=
  setMem (setMem sys0 0x200 0x50) 0x201 0x01

/-- C2, counterexample: on the unmatched nonzero word `0x5001` the tick does
not return any `SystemError` to its caller (indeed no state at all): it hits
the `unimplemented!` panic of the `otherwise` branch. -/
theorem unknown_opcode_no_error_cex :
    (tick 0 c2sys).errOf = none ∧ (tick 0 c2sys).stateOf.isNone = true ∧
    tick 0 c2sys = .panicUnknownOpcode 0x5001 := by
  refine ⟨by decide, by decide, rfl⟩

/-- C2 (amended): for every nonzero fetched word matching none of the decoder
families, `tick` diverges through the `unimplemented!("Unknown opcode")` panic
carrying the word; `SystemError` has no `UnknownOpcode` variant. -/
theorem unknown_opcode_panics : ∀ (rnd : Nat) (s : System) (w : Nat),
    fetchWord s = some w → w ≠ 0 → matchesFamily w = false →
    tick rnd s = .panicUnknownOpcode w := by
  intro rnd s w hf h0 hm
  rw [tick_eq_exec rnd hf]
  simp only [matchesFamily, Bool.or_eq_false_iff, beq_eq_false_iff_ne, ne_eq,
    and_assoc] at hm
  obtain ⟨h1, h2, h3, h4, h5, h6, h7, h8, h9, h10, h11, h12, h13, h14, h15, h16,
    h17, h18, h19, h20, h21, h22, h23, h24, h25, h26, h27, h28, h29, h30, h31,
    h32, h33, h34⟩ := hm
  unfold tickExec
  rw [if_neg h0, if_neg h1, if_neg h2, if_neg h3, if_neg h4, if_neg h5, if_neg h6,
    if_neg h7, if_neg h8, if_neg h9, if_neg h10, if_neg h11, if_neg h12,
    if_neg h13, if_neg h14, if_neg h15, if_neg h16, if_neg h17, if_neg h18,
    if_neg h19, if_neg h20, if_neg h21, if_neg h22, if_neg h23, if_neg h24,
    if_neg h25, if_neg h26, if_neg h27, if_neg h28, if_neg h29, if_neg h30,
    if_neg h31, if_neg h32, if_neg h33, if_neg h34]

/-- C2, witness: the amended statement applied to the concrete word `0x5001`. -/
theorem unknown_opcode_panics_witness :
    tick 0 c2sys = .panicUnknownOpcode 0x5001 :=
  unknown_opcode_panics 0 c2sys 0x5001 rfl (by decide) (by decide)

/-- Concrete machine for C3: `F00A` (LD V0,K) at the program counter. -/
def c3sys : System :=
  setMem (setMem sys0 0x200 0xF0) 0x201 0x0A

/-- C3, code_bug record: executing the `BlockGetKey` opcode diverges through
`unimplemented!("BlockGetKey opcode")` instead of holding the PC and waiting
for a key press edge. -/
theorem blockGetKey_panics : tick 0 c3sys = .panicBlockGetKey := rfl

/-- Concrete machine for C7: `BFFF` (JP V0+0xFFF) with `V0 = 0xFF`. -/
def c7sys : System :=
  setReg (setMem (setMem sys0 0x200 0xBF) 0x201 0xFF) 0 0xFF

/-- C7, counterexample: with `V0 = 0xFF` and `addr = 0xFFF` the jump target is
`0x10FE = V0 + addr` unmasked, not `(V0 + addr) & 0x0FFF = 0x0FE` as the claim
states. -/
theorem jumpPlus_mask_cex :
    TickResult.pcOf (tick 0 c7sys) = some 0x10FE ∧
    ((0xFF + 0xFFF) &&& 0x0FFF) ≠ 0x10FE := by
  decide

/-- C7 (amended): `JP V0+addr` sets the program counter to `V0 + addr` in
16-bit arithmetic, with no truncation of the sum to 12 bits, and the outer
`pc += 2` is suppressed. -/
theorem jumpPlus_adds_without_mask : ∀ (rnd : Nat) (s : System) (w : Nat),
    fetchWord s = some w → w &&& 0xF000 = 0xB000 →
    tick rnd s = .ok { s with registers :=
      { s.registers with pc := (s.registers.reg 0 + argNNN w) % 65536 } } := by
  intro rnd s w hf hw
  rw [tick_eq_exec rnd hf, tickExec_jumpPlus rnd s hw]
  unfold branchJumpPlus
  rw [read_lt s.registers (by omega)]

/-- C7, witness: the amended statement at `V0 = 0xFF`, word `0xBFFF`. -/
theorem jumpPlus_adds_without_mask_witness :
    tick 0 c7sys = .ok { c7sys with registers :=
      { c7sys.registers with pc := (c7sys.registers.reg 0 + argNNN 0xBFFF) % 65536 } } :=
  jumpPlus_adds_without_mask 0 c7sys 0xBFFF rfl (by decide)

/-- Concrete machine for C8: `F029` (LD F,V0) with `V0 = 0x10`, a value above
the nibble range. -/
def c8sys : System :=
  setReg (setMem (setMem sys0 0x200 0xF0) 0x201 0x29) 0 0x10

/-- C8, counterexample: with `Vx = 0x10` the index register becomes
`5 * 0x10 = 80`, not `5 * (0x10 & 0x0F) = 0` as the claim states. -/
theorem getSprite_mask_cex :
    TickResult.idxOf (tick 0 c8sys) = some 80 ∧ 5 * (0x10 &&& 0x0F) ≠ 80 := by
  decide

/-- C8 (amended): `LD F,Vx` sets `I := 5 * Vx` in 16-bit arithmetic; the
register value is not masked to its low nibble. -/
theorem getSprite_five_times_vx : ∀ (rnd : Nat) (s : System) (w : Nat),
    fetchWord s = some w → w &&& 0xF0FF = 0xF029 →
    tick rnd s = .ok (advancePC { s with registers :=
      { s.registers with index := (5 * s.registers.reg (argX w)) % 65536 } }) := by
  intro rnd s w hf hw
  rw [tick_eq_exec rnd hf, tickExec_getSprite rnd s hw]
  unfold bodyGetSprite
  rw [read_lt s.registers (by have := argX_le w; omega)]
  rfl

/-- C8, witness: the amended statement at `V0 = 0x10`, word `0xF029`. -/
theorem getSprite_five_times_vx_witness :
    tick 0 c8sys = .ok (advancePC { c8sys with registers :=
      { c8sys.registers with index := (5 * c8sys.registers.reg (argX 0xF029)) % 65536 } }) :=
  getSprite_five_times_vx 0 c8sys 0xF029 rfl (by decide)

/-- Concrete machine for the C4 counterexample: `F333` (LD B,V3) with
`V3 = 123` and `I = 4094`, so the third BCD byte write fails after the first
two already mutated memory. -/
def c4sys : System :=
  setIdx (setReg (setMem (setMem sys0 0x200 0xF3) 0x201 0x33) 3 123) 4094

/-- C4, counterexample: this failing tick returns `InvalidMemoryAccess 4096`
yet memory cell 4094 changed from 0 to the BCD hundreds digit 1, so a failing
tick is not atomic. -/
theorem tick_error_not_atomic_cex :
    (tick 0 c4sys).errOf = some (.invalidMemoryAccess 4096) ∧
    (tick 0 c4sys).memOf 4094 = some 1 ∧
    (tick 0 c4sys).memOf 4095 = some 2 ∧
    c4sys.mem 4094 = 0 ∧ c4sys.mem 4095 = 0 := by
  decide

/-- Success test for a load outcome. -/
def loadOk : Except SystemError System → Bool
  | .ok _ => true
  | .error _ => false

/-- One memory byte of a successful load outcome. -/
def loadMemAt (r : Except SystemError System) (i : Nat) : Option Nat :=
  match r with
  | .ok s => some (s.mem i)
  | .error _ => none

/-- C9: `System::load` succeeds for every stream of at most 3584 bytes, copying
it into memory at 0x200 and leaving the rest of memory unchanged, and fails
with `ProgramTooLarge` for every stream of 3585 bytes or more. -/
theorem load_size_limits : ∀ (s : System) (buf : List Nat),
    (buf.length ≤ 3584 →
      loadOk (load s buf) = true ∧
      (∀ i, i < buf.length → loadMemAt (load s buf) (0x200 + i) = some (buf.getD i 0)) ∧
      (∀ i, i < 0x200 ∨ 0x200 + buf.length ≤ i → loadMemAt (load s buf) i = some (s.mem i))) ∧
    (3585 ≤ buf.length → load s buf = .error .programTooLarge) := by
  intro s buf
  constructor
  · intro h
    unfold load
    rw [if_neg (by omega)]
    refine ⟨rfl, fun i hi => ?_, fun i hi => ?_⟩
    · simp only [loadMemAt]
      rw [if_pos (by omega : 0x200 ≤ 0x200 + i ∧ 0x200 + i < 0x200 + buf.length)]
      have hsub : 0x200 + i - 0x200 = i := by omega
      rw [hsub]
    · simp only [loadMemAt]
      rw [if_neg (by omega : ¬ (0x200 ≤ i ∧ i < 0x200 + buf.length))]
  · intro h
    unfold load
    rw [if_pos (by omega)]

/-- C9, witness: a 3584-byte stream of sevens loads (first byte lands at
0x200) and a 3585-byte stream is rejected. -/
theorem load_size_limits_witness :
    loadOk (load sys0 (List.replicate 3584 7)) = true ∧
    loadMemAt (load sys0 (List.replicate 3584 7)) 0x200 = some 7 ∧
    load sys0 (List.replicate 3585 7) = .error .programTooLarge := by
  have hlen : (List.replicate 3584 7).length ≤ 3584 := by
    rw [List.length_replicate]
  have hlen2 : 3585 ≤ (List.replicate 3585 7).length := by
    rw [List.length_replicate]
  refine ⟨((load_size_limits sys0 (List.replicate 3584 7)).1 hlen).1, ?_, ?_⟩
  · have h := (((load_size_limits sys0 (List.replicate 3584 7)).1 hlen).2.1) 0
      (by rw [List.length_replicate]; omega)
    rw [Nat.add_zero] at h
    rw [show (List.replicate 3584 7).getD 0 0 = 7 from rfl] at h
    exact h
  · exact (load_size_limits sys0 (List.replicate 3585 7)).2 hlen2

lemma updF_self (f : Nat → Nat) (k v : Nat) : updF f k v k = v := by
  simp [updF]

lemma updF_ne (f : Nat → Nat) {i k : Nat} (v : Nat) (h : i ≠ k) : updF f k v i = f i := by
  simp [updF, h]

lemma call_ok {rnd : Nat} {s s1 : System} {w : Nat}
    (hf : fetchWord s = some w) (hw : w &&& 0xF000 = 0x2000)
    (ht : tick rnd s = .ok s1) :
    s.stack.sp < 16 ∧
    s1.stack.stack = updF s.stack.stack s.stack.sp s.registers.pc ∧
    s1.stack.sp = s.stack.sp + 1 ∧
    s1.registers.pc = argNNN w := by
  rw [tick_eq_exec rnd hf, tickExec_call rnd s hw] at ht
  unfold branchCall at ht
  by_cases hsp : 16 ≤ s.stack.sp
  · rw [if_pos hsp] at ht
    exact TickResult.noConfusion ht
  · rw [if_neg hsp] at ht
    injection ht with h
    subst h
    exact ⟨by omega, rfl, rfl, rfl⟩

lemma ret_ok {rnd : Nat} {s s1 : System}
    (hf : fetchWord s = some 0x00EE) (ht : tick rnd s = .ok s1) :
    s.stack.sp ≠ 0 ∧ s1.stack.stack = s.stack.stack ∧
    s1.stack.sp = s.stack.sp - 1 ∧
    s1.registers.pc = (s.stack.stack (s.stack.sp - 1) + 2) % 65536 := by
  rw [tick_eq_exec rnd hf] at ht
  have he : tickExec rnd s 0x00EE = andAdvance (bodyReturn s) := rfl
  rw [he] at ht
  unfold bodyReturn at ht
  by_cases hsp : s.stack.sp = 0
  · rw [if_pos hsp] at ht
    exact TickResult.noConfusion ht
  · rw [if_neg hsp] at ht
    injection ht with h
    subst h
    exact ⟨hsp, rfl, rfl, rfl⟩

lemma ret_underflow {rnd : Nat} {s : System}
    (hf : fetchWord s = some 0x00EE) (hsp : s.stack.sp = 0) :
    tick rnd s = .err .stackUnderflow s := by
  rw [tick_eq_exec rnd hf]
  have he : tickExec rnd s 0x00EE = andAdvance (bodyReturn s) := rfl
  rw [he]
  unfold bodyReturn
  rw [if_pos hsp]
  rfl

lemma call_overflow {rnd : Nat} {s : System} {w : Nat}
    (hf : fetchWord s = some w) (hw : w &&& 0xF000 = 0x2000)
    (hsp : 16 ≤ s.stack.sp) :
    tick rnd s = .err .stackOverflow s := by
  rw [tick_eq_exec rnd hf, tickExec_call rnd s hw]
  unfold branchCall
  rw [if_pos hsp]

/-- Properly nested sequences of CALL/RET pairs executed by `tick`, indexed by
the number of pairs: either the empty sequence, or an enclosing CALL/RET pair
around a nested sequence followed by a further sequence. -/
inductive CRSeq : Nat → System → System → Prop where
  | nil (s : System) : CRSeq 0 s s
  | pair (n m r1 r2 w : Nat) (s s1 s2 s3 s4 : System) :
      fetchWord s = some w → w &&& 0xF000 = 0x2000 →
      tick r1 s = .ok s1 → CRSeq n s1 s2 →
      fetchWord s2 = some 0x00EE → tick r2 s2 = .ok s3 →
      CRSeq m s3 s4 → CRSeq (n + m + 1) s s4

lemma CRSeq_preserves {n : Nat} {s t : System} (h : CRSeq n s t) :
    t.stack.sp = s.stack.sp ∧
    ∀ i, i < s.stack.sp → t.stack.stack i = s.stack.stack i := by
  induction h with
  | nil s => exact ⟨rfl, fun i _ => rfl⟩
  | pair n m r1 r2 w s s1 s2 s3 s4 hf hw ht hin hf2 ht2 hrest ih1 ih2 =>
    obtain ⟨hlt, hstk1, hsp1, _hpc1⟩ := call_ok hf hw ht
    obtain ⟨_hne, hstk3, hsp3, _hpc3⟩ := ret_ok hf2 ht2
    obtain ⟨ihsp1, ihstk1⟩ := ih1
    obtain ⟨ihsp2, ihstk2⟩ := ih2
    constructor
    · omega
    · intro i hi
      have h4 : s4.stack.stack i = s3.stack.stack i := ihstk2 i (by omega)
      have h3 : s3.stack.stack i = s2.stack.stack i := by rw [hstk3]
      have h2 : s2.stack.stack i = s1.stack.stack i := ihstk1 i (by omega)
      have h1 : s1.stack.stack i = s.stack.stack i := by
        rw [hstk1]; exact updF_ne _ _ (by omega)
      omega

/-- C5: confirmed semantics of the call stack.  First conjunct: around any
properly nested sequence of at most 16 CALL/RET pairs, the RET matching the
outermost CALL lands the program counter two past the CALL site and restores
the stack pointer.  Second conjunct: a successful RET decrements SP and sets
the PC to `stack[SP]` plus the outer advance.  Third and fourth conjuncts: RET
with SP = 0 fails with `StackUnderflow` and CALL with SP = 16 fails with
`StackOverflow`, in both cases without mutating the state. -/
theorem call_ret_nested :
    (∀ (n r1 r2 w : Nat) (s s1 s2 s3 : System),
      n + 1 ≤ 16 →
      fetchWord s = some w → w &&& 0xF000 = 0x2000 →
      tick r1 s = .ok s1 → CRSeq n s1 s2 →
      fetchWord s2 = some 0x00EE → tick r2 s2 = .ok s3 →
      s3.registers.pc = (s.registers.pc + 2) % 65536 ∧
      s3.stack.sp = s.stack.sp) ∧
    (∀ (r : Nat) (s s1 : System), fetchWord s = some 0x00EE → tick r s = .ok s1 →
      0 < s.stack.sp ∧ s1.stack.sp = s.stack.sp - 1 ∧
      s1.registers.pc = (s.stack.stack (s.stack.sp - 1) + 2) % 65536) ∧
    (∀ (r : Nat) (s : System), fetchWord s = some 0x00EE → s.stack.sp = 0 →
      tick r s = .err .stackUnderflow s) ∧
    (∀ (r w : Nat) (s : System), fetchWord s = some w → w &&& 0xF000 = 0x2000 →
      16 ≤ s.stack.sp → tick r s = .err .stackOverflow s) := by
  refine ⟨?_, ?_, ?_, ?_⟩
  · intro n r1 r2 w s s1 s2 s3 _hn hf hw ht hseq hf2 ht2
    obtain ⟨hlt, hstk1, hsp1, _hpc1⟩ := call_ok hf hw ht
    obtain ⟨hsp2, hstk2⟩ := CRSeq_preserves hseq
    obtain ⟨hne, _hstk3, hsp3, hpc3⟩ := ret_ok hf2 ht2
    constructor
    · rw [hpc3]
      have hidx : s2.stack.sp - 1 = s.stack.sp := by omega
      rw [hidx]
      have hv : s2.stack.stack s.stack.sp = s1.stack.stack s.stack.sp :=
        hstk2 s.stack.sp (by omega)
      rw [hv, hstk1, updF_self]
    · omega
  · intro r s s1 hf ht
    obtain ⟨hne, _hstk, hsp, hpc⟩ := ret_ok hf ht
    exact ⟨by omega, hsp, hpc⟩
  · intro r s hf hsp
    exact ret_underflow hf hsp
  · intro r w s hf hw hsp
    exact call_overflow hf hw hsp

/-- Concrete machine for the C5 witness: `CALL 0x204` at 0x200 and `RET` at
0x204. -/
def c5sys : System :=
  setMem (setMem (setMem sys0 0x200 0x22) 0x201 0x04) 0x205 0xEE

/-- State after the CALL of the C5 witness program. -/
def c5s1 : System := (tick 0 c5sys).okState sys0

/-- C5, witness: running CALL then RET on the concrete program brings the
program counter to 0x202 (the instruction after the CALL) with an empty
stack. -/
theorem call_ret_nested_witness :
    ((tick 0 c5s1).okState sys0).registers.pc = 0x202 ∧
    ((tick 0 c5s1).okState sys0).stack.sp = 0 := by
  have h := call_ret_nested.1 0 0 0 0x2204 c5sys c5s1 c5s1
    ((tick 0 c5s1).okState sys0) (by omega) rfl (by decide) rfl
    (CRSeq.nil c5s1) rfl rfl
  exact ⟨by rw [h.1]; decide, by rw [h.2]; decide⟩

/-- Control state preserved by a failing tick: program counter, index register,
stack, keys and timers. -/
def PresCtl (s t : System) : Prop :=
  t.registers.pc = s.registers.pc ∧ t.registers.index = s.registers.index ∧
  t.stack = s.stack ∧ t.keys = s.keys ∧ t.timers = s.timers

lemma presCtl_refl (s : System) : PresCtl s s := ⟨rfl, rfl, rfl, rfl, rfl⟩

/-- Everything except memory preserved (memory-writing instructions). -/
def PresMemOnly (s t : System) : Prop :=
  t.screen = s.screen ∧ t.registers = s.registers ∧ t.stack = s.stack ∧
  t.keys = s.keys ∧ t.timers = s.timers

lemma presMemOnly_refl (s : System) : PresMemOnly s s := ⟨rfl, rfl, rfl, rfl, rfl⟩

lemma presMemOnly_trans {a b c : System} (h1 : PresMemOnly a b) (h2 : PresMemOnly b c) :
    PresMemOnly a c :=
  ⟨h2.1.trans h1.1, h2.2.1.trans h1.2.1, h2.2.2.1.trans h1.2.2.1,
   h2.2.2.2.1.trans h1.2.2.2.1, h2.2.2.2.2.trans h1.2.2.2.2⟩

lemma presCtl_of_memOnly {s t : System} (h : PresMemOnly s t) : PresCtl s t :=
  ⟨by rw [h.2.1], by rw [h.2.1], h.2.2.1, h.2.2.2.1, h.2.2.2.2⟩

/-- Everything except the framebuffer preserved (the draw loops). -/
def PresScreenOnly (s t : System) : Prop :=
  t.mem = s.mem ∧ t.registers = s.registers ∧ t.stack = s.stack ∧
  t.keys = s.keys ∧ t.timers = s.timers

lemma presScreenOnly_refl (s : System) : PresScreenOnly s s := ⟨rfl, rfl, rfl, rfl, rfl⟩

lemma presScreenOnly_trans {a b c : System} (h1 : PresScreenOnly a b)
    (h2 : PresScreenOnly b c) : PresScreenOnly a c :=
  ⟨h2.1.trans h1.1, h2.2.1.trans h1.2.1, h2.2.2.1.trans h1.2.2.1,
   h2.2.2.2.1.trans h1.2.2.2.1, h2.2.2.2.2.trans h1.2.2.2.2⟩

lemma presCtl_of_screenOnly {s t : System} (h : PresScreenOnly s t) : PresCtl s t :=
  ⟨by rw [h.2.1], by rw [h.2.1], h.2.2.1, h.2.2.2.1, h.2.2.2.2⟩

/-- Everything except the general purpose register file preserved (RegLoad). -/
def PresRegOnly (s t : System) : Prop :=
  t.mem = s.mem ∧ t.screen = s.screen ∧ t.stack = s.stack ∧
  t.keys = s.keys ∧ t.timers = s.timers ∧
  t.registers.pc = s.registers.pc ∧ t.registers.index = s.registers.index

lemma presRegOnly_refl (s : System) : PresRegOnly s s := ⟨rfl, rfl, rfl, rfl, rfl, rfl, rfl⟩

lemma presRegOnly_trans {a b c : System} (h1 : PresRegOnly a b)
    (h2 : PresRegOnly b c) : PresRegOnly a c :=
  ⟨h2.1.trans h1.1, h2.2.1.trans h1.2.1, h2.2.2.1.trans h1.2.2.1,
   h2.2.2.2.1.trans h1.2.2.2.1, h2.2.2.2.2.1.trans h1.2.2.2.2.1,
   h2.2.2.2.2.2.1.trans h1.2.2.2.2.2.1, h2.2.2.2.2.2.2.trans h1.2.2.2.2.2.2⟩

lemma presCtl_of_regOnly {s t : System} (h : PresRegOnly s t) : PresCtl s t :=
  ⟨h.2.2.2.2.2.1, h.2.2.2.2.2.2, h.2.2.1, h.2.2.2.1, h.2.2.2.2.1⟩

lemma andAdvance_err {st : Step} {e : SystemError} {t : System}
    (h : andAdvance st = .err e t) : st = .error (e, t) := by
  match st with
  | .error (e1, t1) =>
    simp only [andAdvance] at h
    injection h with h1 h2
    rw [h1, h2]
  | .ok t1 =>
    simp only [andAdvance] at h
    exact TickResult.noConfusion h

lemma writeMem_ok_fields {s : System} {p v : Nat} {t : System}
    (h : writeMem s p v = .ok t) : PresMemOnly s t := by
  unfold writeMem at h
  split at h
  · injection h with h1
    rw [← h1]
    exact ⟨rfl, rfl, rfl, rfl, rfl⟩
  · exact Except.noConfusion h

lemma writeMem_error_shape {s : System} {p v : Nat} {e : SystemError}
    (h : writeMem s p v = .error e) : e = .invalidMemoryAccess p := by
  unfold writeMem at h
  split at h
  · exact Except.noConfusion h
  · injection h with h1
    rw [h1]

lemma readMem_error_shape {s : System} {p : Nat} {e : SystemError}
    (h : readMem s p = .error e) : e = .invalidMemoryAccess p := by
  unfold readMem at h
  split at h
  · exact Except.noConfusion h
  · injection h with h1
    rw [h1]

lemma regDumpFrom_inv {r : Nat} (hr : r < 16) : ∀ (k i : Nat) (s : System),
    r + 1 - i ≤ k →
    (∀ t, regDumpFrom s r i = .ok t → PresMemOnly s t) ∧
    (∀ e t, regDumpFrom s r i = .error (e, t) →
      PresMemOnly s t ∧ ∃ a, e = .invalidMemoryAccess a) := by
  intro k
  induction k with
  | zero =>
    intro i s hk
    rw [regDumpFrom, dif_neg (by omega : ¬ i ≤ r)]
    constructor
    · intro t h
      injection h with h1
      rw [← h1]
      exact presMemOnly_refl s
    · intro e t h
      exact Except.noConfusion h
  | succ k ih =>
    intro i s hk
    rw [regDumpFrom]
    by_cases hir : i ≤ r
    · rw [dif_pos hir, read_lt s.registers (by omega)]
      simp only []
      cases hw : writeMem s ((s.registers.index + i) % 65536) (s.registers.reg i) with
      | error e1 =>
        simp only []
        constructor
        · intro t h
          exact Except.noConfusion h
        · intro e t h
          injection h with h1
          injection h1 with h2 h3
          rw [← h2, ← h3]
          exact ⟨presMemOnly_refl s, _, writeMem_error_shape hw⟩
      | ok s1 =>
        simp only []
        have hpres := writeMem_ok_fields hw
        have ihs := ih (i + 1) s1 (by omega)
        constructor
        · intro t h
          exact presMemOnly_trans hpres (ihs.1 t h)
        · intro e t h
          obtain ⟨hp, he⟩ := ihs.2 e t h
          exact ⟨presMemOnly_trans hpres hp, he⟩
    · rw [dif_neg hir]
      constructor
      · intro t h
        injection h with h1
        rw [← h1]
        exact presMemOnly_refl s
      · intro e t h
        exact Except.noConfusion h

lemma regLoadFrom_inv {r : Nat} (hr : r < 16) : ∀ (k i : Nat) (s : System),
    r + 1 - i ≤ k →
    (∀ t, regLoadFrom s r i = .ok t → PresRegOnly s t) ∧
    (∀ e t, regLoadFrom s r i = .error (e, t) →
      PresRegOnly s t ∧ ∃ a, e = .invalidMemoryAccess a) := by
  intro k
  induction k with
  | zero =>
    intro i s hk
    rw [regLoadFrom, dif_neg (by omega : ¬ i ≤ r)]
    constructor
    · intro t h
      injection h with h1
      rw [← h1]
      exact presRegOnly_refl s
    · intro e t h
      exact Except.noConfusion h
  | succ k ih =>
    intro i s hk
    rw [regLoadFrom]
    by_cases hir : i ≤ r
    · rw [dif_pos hir]
      cases hm : readMem s ((s.registers.index + i) % 65536) with
      | error e1 =>
        simp only []
        constructor
        · intro t h
          exact Except.noConfusion h
        · intro e t h
          injection h with h1
          injection h1 with h2 h3
          rw [← h2, ← h3]
          exact ⟨presRegOnly_refl s, _, readMem_error_shape hm⟩
      | ok v =>
        simp only []
        rw [write_lt s.registers (by omega)]
        simp only []
        have hpres : PresRegOnly s { s with registers :=
            { s.registers with reg := updF s.registers.reg i v } } :=
          ⟨rfl, rfl, rfl, rfl, rfl, rfl, rfl⟩
        have ihs := ih (i + 1) { s with registers :=
            { s.registers with reg := updF s.registers.reg i v } } (by omega)
        constructor
        · intro t h
          exact presRegOnly_trans hpres (ihs.1 t h)
        · intro e t h
          obtain ⟨hp, he⟩ := ihs.2 e t h
          exact ⟨presRegOnly_trans hpres hp, he⟩
    · rw [dif_neg hir]
      constructor
      · intro t h
        injection h with h1
        rw [← h1]
        exact presRegOnly_refl s
      · intro e t h
        exact Except.noConfusion h

lemma draw_pres (s : System) (a b : Nat) (v : Bool) :
    PresScreenOnly s (s.draw a b v).1 := by
  unfold System.draw
  simp only []
  split
  · exact ⟨rfl, rfl, rfl, rfl, rfl⟩
  · exact ⟨rfl, rfl, rfl, rfl, rfl⟩

lemma drawPixels_pres (x y byte value : Nat) : ∀ (k p : Nat) (s : System) (carry : Bool),
    8 - p ≤ k → PresScreenOnly s (drawPixels x y byte value p s carry).1 := by
  intro k
  induction k with
  | zero =>
    intro p s carry hk
    rw [drawPixels, dif_neg (by omega : ¬ p < 8)]
    exact presScreenOnly_refl s
  | succ k ih =>
    intro p s carry hk
    rw [drawPixels]
    by_cases hp : p < 8
    · rw [dif_pos hp]
      exact presScreenOnly_trans (draw_pres s _ _ _) (ih (p + 1) _ _ (by omega))
    · rw [dif_neg hp]
      exact presScreenOnly_refl s

lemma drawRows_inv (x y height : Nat) : ∀ (k b : Nat) (s : System) (carry : Bool),
    height - b ≤ k →
    (∀ t c, drawRows x y height b s carry = .ok (t, c) → PresScreenOnly s t) ∧
    (∀ e t, drawRows x y height b s carry = .error (e, t) →
      PresScreenOnly s t ∧ ∃ a, e = .invalidMemoryAccess a) := by
  intro k
  induction k with
  | zero =>
    intro b s carry hk
    rw [drawRows, dif_neg (by omega : ¬ b < height)]
    constructor
    · intro t c h
      injection h with h1
      injection h1 with h2 h3
      rw [← h2]
      exact presScreenOnly_refl s
    · intro e t h
      exact Except.noConfusion h
  | succ k ih =>
    intro b s carry hk
    rw [drawRows]
    by_cases hb : b < height
    · rw [dif_pos hb]
      cases hm : readMem s ((s.registers.index + b) % 65536) with
      | error e1 =>
        simp only []
        constructor
        · intro t c h
          exact Except.noConfusion h
        · intro e t h
          injection h with h1
          injection h1 with h2 h3
          rw [← h2, ← h3]
          exact ⟨presScreenOnly_refl s, _, readMem_error_shape hm⟩
      | ok value =>
        simp only []
        have hpix := drawPixels_pres x y b value 8 0 s carry (by omega)
        have ihs := ih (b + 1) (drawPixels x y b value 0 s carry).1
          (drawPixels x y b value 0 s carry).2 (by omega)
        constructor
        · intro t c h
          exact presScreenOnly_trans hpix (ihs.1 t c h)
        · intro e t h
          obtain ⟨hp, he⟩ := ihs.2 e t h
          exact ⟨presScreenOnly_trans hpix hp, he⟩
    · rw [dif_neg hb]
      constructor
      · intro t c h
        injection h with h1
        injection h1 with h2 h3
        rw [← h2]
        exact presScreenOnly_refl s
      · intro e t h
        exact Except.noConfusion h

/-- Errors that are neither `InvalidRegister` nor `InvalidKey`. -/
def EOk (e : SystemError) : Prop :=
  (∀ a, e ≠ .invalidRegister a) ∧ (∀ a, e ≠ .invalidKey a)

/-- Boolean test matching `EOk`. -/
def eGoodB : SystemError → Bool
  | .invalidRegister _ => false
  | .invalidKey _ => false
  | _ => true

lemma eok_of_b {e : SystemError} (h : eGoodB e = true) : EOk e := by
  cases e <;> simp_all [eGoodB, EOk]

lemma readMemPair_error_shape {s : System} {p : Nat} {e : SystemError}
    (h : readMemPair s p = .error e) : e = .invalidMemoryAccess p := by
  unfold readMemPair at h
  split at h
  · split at h
    · exact Except.noConfusion h
    · injection h with h1
      exact h1.symm
  · injection h with h1
    exact h1.symm

lemma binCoded_err {s : System} {x : Nat} {e : SystemError} {t : System}
    (hx : x < 16) (h : bodyBinCoded s x = .error (e, t)) :
    PresMemOnly s t ∧ ∃ a, e = .invalidMemoryAccess a := by
  unfold bodyBinCoded at h
  rw [read_lt s.registers hx] at h
  simp only [] at h
  split at h
  next e1 heq1 =>
    injection h with h1
    injection h1 with h2 h3
    rw [← h2, ← h3]
    exact ⟨presMemOnly_refl s, _, writeMem_error_shape heq1⟩
  next s1 heq1 =>
    split at h
    next e2 heq2 =>
      injection h with h1
      injection h1 with h2 h3
      rw [← h2, ← h3]
      exact ⟨writeMem_ok_fields heq1, _, writeMem_error_shape heq2⟩
    next s2 heq2 =>
      split at h
      next e3 heq3 =>
        injection h with h1
        injection h1 with h2 h3
        rw [← h2, ← h3]
        exact ⟨presMemOnly_trans (writeMem_ok_fields heq1) (writeMem_ok_fields heq2),
          _, writeMem_error_shape heq3⟩
      next s3 heq3 =>
        exact Except.noConfusion h

lemma bodyDraw_err {s : System} {rx ry n : Nat} {e : SystemError} {t : System}
    (hx : rx < 16) (hy : ry < 16) (h : bodyDraw s rx ry n = .error (e, t)) :
    PresScreenOnly s t ∧ ∃ a, e = .invalidMemoryAccess a := by
  unfold bodyDraw at h
  rw [read_lt s.registers hx, read_lt s.registers hy] at h
  simp only [] at h
  split at h
  · rename_i e1 t1 heq
    injection h with h1
    injection h1 with h2 h3
    rw [← h2, ← h3]
    exact (drawRows_inv (s.registers.reg rx) (s.registers.reg ry) n n 0 s false
      (by omega)).2 e1 t1 heq
  · exact Except.noConfusion h

set_option maxHeartbeats 16000000 in
lemma tick_err_master : ∀ (rnd : Nat) (s : System) (e : SystemError) (t : System),
    tick rnd s = .err e t → PresCtl s t ∧ EOk e := by
  intro rnd s e t ht
  cases hfi : fetch_instruction s with
  | error e0 =>
    have hte : tick rnd s = .err e0 s := by
      unfold tick
      rw [hfi]
    rw [hte] at ht
    injection ht with h1 h2
    subst h2
    rw [← h1]
    have ha := readMemPair_error_shape hfi
    rw [ha]
    exact ⟨presCtl_refl s, eok_of_b rfl⟩
  | ok w =>
    have hfw : fetchWord s = some w := by
      unfold fetchWord
      rw [hfi]
    rw [tick_eq_exec rnd hfw] at ht
    have hX : argX w < 16 := by have := argX_le w; omega
    have hY : argY w < 16 := by have := argY_le w; omega
    have h0 : (0 : Nat) < 16 := by omega
    unfold tickExec at ht
    by_cases hc1 : w = 0
    · rw [if_pos hc1] at ht
      injection ht with h1 h2
      subst h2
      rw [← h1]
      exact ⟨presCtl_refl s, eok_of_b rfl⟩
    · rw [if_neg hc1] at ht
      by_cases hc2 : w = 0x00E0
      · rw [if_pos hc2] at ht
        have hb := andAdvance_err ht
        unfold bodyClearScreen at hb
        exact Except.noConfusion hb
      · rw [if_neg hc2] at ht
        by_cases hc3 : w = 0x00EE
        · rw [if_pos hc3] at ht
          have hb := andAdvance_err ht
          unfold bodyReturn at hb
          split at hb
          · injection hb with h1
            injection h1 with h2 h3
            subst h3
            rw [← h2]
            exact ⟨presCtl_refl s, eok_of_b rfl⟩
          · exact Except.noConfusion hb
        · rw [if_neg hc3] at ht
          by_cases hc4 : w &&& 0xF000 = 0x1000
          · rw [if_pos hc4] at ht
            exact TickResult.noConfusion ht
          · rw [if_neg hc4] at ht
            by_cases hc5 : w &&& 0xF000 = 0x2000
            · rw [if_pos hc5] at ht
              unfold branchCall at ht
              split at ht
              · injection ht with h1 h2
                subst h2
                rw [← h1]
                exact ⟨presCtl_refl s, eok_of_b rfl⟩
              · exact TickResult.noConfusion ht
            · rw [if_neg hc5] at ht
              by_cases hc6 : w &&& 0xF000 = 0x3000
              · rw [if_pos hc6] at ht
                have hb := andAdvance_err ht
                unfold bodySkipIfEq at hb
                rw [read_lt s.registers hX] at hb
                simp only [] at hb
                split at hb <;> exact Except.noConfusion hb
              · rw [if_neg hc6] at ht
                by_cases hc7 : w &&& 0xF000 = 0x4000
                · rw [if_pos hc7] at ht
                  have hb := andAdvance_err ht
                  unfold bodySkipIfNeq at hb
                  rw [read_lt s.registers hX] at hb
                  simp only [] at hb
                  split at hb <;> exact Except.noConfusion hb
                · rw [if_neg hc7] at ht
                  by_cases hc8 : w &&& 0xF00F = 0x5000
                  · rw [if_pos hc8] at ht
                    have hb := andAdvance_err ht
                    unfold bodySkipIfRegEq at hb
                    rw [read_lt s.registers hX, read_lt s.registers hY] at hb
                    simp only [] at hb
                    split at hb <;> exact Except.noConfusion hb
                  · rw [if_neg hc8] at ht
                    by_cases hc9 : w &&& 0xF00F = 0x9000
                    · rw [if_pos hc9] at ht
                      have hb := andAdvance_err ht
                      unfold bodySkipIfRegNeq at hb
                      rw [read_lt s.registers hX, read_lt s.registers hY] at hb
                      simp only [] at hb
                      split at hb <;> exact Except.noConfusion hb
                    · rw [if_neg hc9] at ht
                      by_cases hc10 : w &&& 0xF000 = 0x6000
                      · rw [if_pos hc10] at ht
                        have hb := andAdvance_err ht
                        unfold bodySetReg at hb
                        rw [write_lt s.registers hX] at hb
                        simp only [] at hb
                        exact Except.noConfusion hb
                      · rw [if_neg hc10] at ht
                        by_cases hc11 : w &&& 0xF000 = 0x7000
                        · rw [if_pos hc11] at ht
                          have hb := andAdvance_err ht
                          unfold bodySAddReg at hb
                          rw [withReg_lt s.registers hX] at hb
                          simp only [] at hb
                          exact Except.noConfusion hb
                        · rw [if_neg hc11] at ht
                          by_cases hc12 : w &&& 0xF00F = 0x8000
                          · rw [if_pos hc12] at ht
                            have hb := andAdvance_err ht
                            unfold bodyMovReg at hb
                            rw [read_lt s.registers hY] at hb
                            simp only [] at hb
                            rw [write_lt s.registers hX] at hb
                            simp only [] at hb
                            exact Except.noConfusion hb
                          · rw [if_neg hc12] at ht
                            by_cases hc13 : w &&& 0xF00F = 0x8001
                            · rw [if_pos hc13] at ht
                              have hb := andAdvance_err ht
                              unfold bodyOrReg at hb
                              rw [read_lt s.registers hY] at hb
                              simp only [] at hb
                              rw [withReg_lt s.registers hX] at hb
                              simp only [] at hb
                              exact Except.noConfusion hb
                            · rw [if_neg hc13] at ht
                              by_cases hc14 : w &&& 0xF00F = 0x8002
                              · rw [if_pos hc14] at ht
                                have hb := andAdvance_err ht
                                unfold bodyAndReg at hb
                                rw [read_lt s.registers hY] at hb
                                simp only [] at hb
                                rw [withReg_lt s.registers hX] at hb
                                simp only [] at hb
                                exact Except.noConfusion hb
                              · rw [if_neg hc14] at ht
                                by_cases hc15 : w &&& 0xF00F = 0x8003
                                · rw [if_pos hc15] at ht
                                  have hb := andAdvance_err ht
                                  unfold bodyXorReg at hb
                                  rw [read_lt s.registers hY] at hb
                                  simp only [] at hb
                                  rw [withReg_lt s.registers hX] at hb
                                  simp only [] at hb
                                  exact Except.noConfusion hb
                                · rw [if_neg hc15] at ht
                                  by_cases hc16 : w &&& 0xF00F = 0x8004
                                  · rw [if_pos hc16] at ht
                                    have hb := andAdvance_err ht
                                    unfold bodyAddReg at hb
                                    rw [read_lt s.registers hY] at hb
                                    simp only [] at hb
                                    rw [withReg_lt s.registers hX] at hb
                                    simp only [] at hb
                                    exact Except.noConfusion hb
                                  · rw [if_neg hc16] at ht
                                    by_cases hc17 : w &&& 0xF00F = 0x8005
                                    · rw [if_pos hc17] at ht
                                      have hb := andAdvance_err ht
                                      unfold bodySubReg at hb
                                      rw [read_lt s.registers hY] at hb
                                      simp only [] at hb
                                      rw [withReg_lt s.registers hX] at hb
                                      simp only [] at hb
                                      exact Except.noConfusion hb
                                    · rw [if_neg hc17] at ht
                                      by_cases hc18 : w &&& 0xF00F = 0x8006
                                      · rw [if_pos hc18] at ht
                                        have hb := andAdvance_err ht
                                        unfold bodyRShiftReg at hb
                                        rw [withReg_lt s.registers hX] at hb
                                        simp only [] at hb
                                        exact Except.noConfusion hb
                                      · rw [if_neg hc18] at ht
                                        by_cases hc19 : w &&& 0xF00F = 0x8007
                                        · rw [if_pos hc19] at ht
                                          have hb := andAdvance_err ht
                                          unfold bodyRSubReg at hb
                                          rw [read_lt s.registers hY] at hb
                                          simp only [] at hb
                                          rw [withReg_lt s.registers hX] at hb
                                          simp only [] at hb
                                          exact Except.noConfusion hb
                                        · rw [if_neg hc19] at ht
                                          by_cases hc20 : w &&& 0xF00F = 0x800E
                                          · rw [if_pos hc20] at ht
                                            have hb := andAdvance_err ht
                                            unfold bodyLShiftReg at hb
                                            rw [withReg_lt s.registers hX] at hb
                                            simp only [] at hb
                                            exact Except.noConfusion hb
                                          · rw [if_neg hc20] at ht
                                            by_cases hc21 : w &&& 0xF000 = 0xA000
                                            · rw [if_pos hc21] at ht
                                              have hb := andAdvance_err ht
                                              unfold bodySetIndex at hb
                                              exact Except.noConfusion hb
                                            · rw [if_neg hc21] at ht
                                              by_cases hc22 : w &&& 0xF000 = 0xB000
                                              · rw [if_pos hc22] at ht
                                                unfold branchJumpPlus at ht
                                                rw [read_lt s.registers h0] at ht
                                                simp only [] at ht
                                                exact TickResult.noConfusion ht
                                              · rw [if_neg hc22] at ht
                                                by_cases hc23 : w &&& 0xF000 = 0xC000
                                                · rw [if_pos hc23] at ht
                                                  have hb := andAdvance_err ht
                                                  unfold bodyRand at hb
                                                  rw [write_lt s.registers hX] at hb
                                                  simp only [] at hb
                                                  exact Except.noConfusion hb
                                                · rw [if_neg hc23] at ht
                                                  by_cases hc24 : w &&& 0xF0FF = 0xF01E
                                                  · rw [if_pos hc24] at ht
                                                    have hb := andAdvance_err ht
                                                    unfold bodyAddIndex at hb
                                                    rw [read_lt s.registers hX] at hb
                                                    simp only [] at hb
                                                    exact Except.noConfusion hb
                                                  · rw [if_neg hc24] at ht
                                                    by_cases hc25 : w &&& 0xF0FF = 0xE09E
                                                    · rw [if_pos hc25] at ht
                                                      have hb := andAdvance_err ht
                                                      unfold bodySkipIfKeyPressed at hb
                                                      rw [pressed_lt s.keys hX] at hb
                                                      simp only [] at hb
                                                      split at hb <;> exact Except.noConfusion hb
                                                    · rw [if_neg hc25] at ht
                                                      by_cases hc26 : w &&& 0xF0FF = 0xE0A1
                                                      · rw [if_pos hc26] at ht
                                                        have hb := andAdvance_err ht
                                                        unfold bodySkipIfKeyNotPressed at hb
                                                        rw [pressed_lt s.keys hX] at hb
                                                        simp only [] at hb
                                                        split at hb <;> exact Except.noConfusion hb
                                                      · rw [if_neg hc26] at ht
                                                        by_cases hc27 : w &&& 0xF0FF = 0xF007
                                                        · rw [if_pos hc27] at ht
                                                          have hb := andAdvance_err ht
                                                          unfold bodyGetDelay at hb
                                                          rw [write_lt s.registers hX] at hb
                                                          simp only [] at hb
                                                          exact Except.noConfusion hb
                                                        · rw [if_neg hc27] at ht
                                                          by_cases hc28 : w &&& 0xF0FF = 0xF00A
                                                          · rw [if_pos hc28] at ht
                                                            exact TickResult.noConfusion ht
                                                          · rw [if_neg hc28] at ht
                                                            by_cases hc29 : w &&& 0xF0FF = 0xF015
                                                            · rw [if_pos hc29] at ht
                                                              have hb := andAdvance_err ht
                                                              unfold bodySetDelay at hb
                                                              rw [read_lt s.registers hX] at hb
                                                              simp only [] at hb
                                                              exact Except.noConfusion hb
                                                            · rw [if_neg hc29] at ht
                                                              by_cases hc30 : w &&& 0xF0FF = 0xF018
                                                              · rw [if_pos hc30] at ht
                                                                have hb := andAdvance_err ht
                                                                unfold bodySetSound at hb
                                                                rw [read_lt s.registers hX] at hb
                                                                simp only [] at hb
                                                                exact Except.noConfusion hb
                                                              · rw [if_neg hc30] at ht
                                                                by_cases hc31 : w &&& 0xF0FF = 0xF029
                                                                · rw [if_pos hc31] at ht
                                                                  have hb := andAdvance_err ht
                                                                  unfold bodyGetSprite at hb
                                                                  rw [read_lt s.registers hX] at hb
                                                                  simp only [] at hb
                                                                  exact Except.noConfusion hb
                                                                · rw [if_neg hc31] at ht
                                                                  by_cases hc32 : w &&& 0xF0FF = 0xF033
                                                                  · rw [if_pos hc32] at ht
                                                                    have hb := andAdvance_err ht
                                                                    obtain ⟨hp, a, ha⟩ := binCoded_err hX hb
                                                                    subst ha
                                                                    exact ⟨presCtl_of_memOnly hp, eok_of_b rfl⟩
                                                                  · rw [if_neg hc32] at ht
                                                                    by_cases hc33 : w &&& 0xF0FF = 0xF055
                                                                    · rw [if_pos hc33] at ht
                                                                      have hb := andAdvance_err ht
                                                                      obtain ⟨hp, a, ha⟩ := (regDumpFrom_inv hX (argX w + 1) 0 s (by omega)).2 e t hb
                                                                      subst ha
                                                                      exact ⟨presCtl_of_memOnly hp, eok_of_b rfl⟩
                                                                    · rw [if_neg hc33] at ht
                                                                      by_cases hc34 : w &&& 0xF0FF = 0xF065
                                                                      · rw [if_pos hc34] at ht
                                                                        have hb := andAdvance_err ht
                                                                        obtain ⟨hp, a, ha⟩ := (regLoadFrom_inv hX (argX w + 1) 0 s (by omega)).2 e t hb
                                                                        subst ha
                                                                        exact ⟨presCtl_of_regOnly hp, eok_of_b rfl⟩
                                                                      · rw [if_neg hc34] at ht
                                                                        by_cases hc35 : w &&& 0xF000 = 0xD000
                                                                        · rw [if_pos hc35] at ht
                                                                          have hb := andAdvance_err ht
                                                                          obtain ⟨hp, a, ha⟩ := bodyDraw_err hX hY hb
                                                                          subst ha
                                                                          exact ⟨presCtl_of_screenOnly hp, eok_of_b rfl⟩
                                                                        · rw [if_neg hc35] at ht
                                                                          exact TickResult.noConfusion ht
/-- State carried by a failing tick outcome, with a fallback. -/
def TickResult.errState (r : TickResult) (d : System) : System :=
  match r with
  | .err _ t => t
  | _ => d

/-- C4 (amended): a failing tick never advances the program counter and leaves
the index register, stack, keys and timers untouched; it is however not fully
atomic, since the failing instruction may already have performed part of its
memory, register-file, or framebuffer writes (BCD store, register dump/load,
sprite draw). -/
theorem tick_error_preserves_control : ∀ (rnd : Nat) (s : System)
    (e : SystemError) (t : System),
    tick rnd s = .err e t →
    t.registers.pc = s.registers.pc ∧ t.registers.index = s.registers.index ∧
    t.stack = s.stack ∧ t.keys = s.keys ∧ t.timers = s.timers :=
  fun rnd s e t ht => (tick_err_master rnd s e t ht).1

/-- C4, witness: the amended statement applied to the failing BCD store of
`c4sys` (whose memory did change, but whose control state did not). -/
theorem tick_error_preserves_control_witness :
    ((tick 0 c4sys).errState sys0).registers.pc = c4sys.registers.pc ∧
    ((tick 0 c4sys).errState sys0).registers.index = c4sys.registers.index ∧
    ((tick 0 c4sys).errState sys0).stack = c4sys.stack ∧
    ((tick 0 c4sys).errState sys0).keys = c4sys.keys ∧
    ((tick 0 c4sys).errState sys0).timers = c4sys.timers :=
  tick_error_preserves_control 0 c4sys (.invalidMemoryAccess 4096)
    ((tick 0 c4sys).errState sys0) rfl

/-- Boolean test: the outcome is not an `InvalidRegister` or `InvalidKey`
error. -/
def TickResult.notRegKeyErr : TickResult → Bool :=
  fun r => match r with
  | .err (.invalidRegister _) _ => false
  | .err (.invalidKey _) _ => false
  | _ => true

/-- C10: every register index and key index `tick` passes to the bounds-checked
accessors is a decoder nibble (or a loop counter bounded by one), hence below
16, so a tick never surfaces `InvalidRegister` or `InvalidKey`. -/
theorem tick_never_invalid_register_or_key : ∀ (rnd : Nat) (s : System),
    (tick rnd s).notRegKeyErr = true := by
  intro rnd s
  cases h : tick rnd s with
  | ok t => rfl
  | err e t =>
    obtain ⟨_, h1, h2⟩ := tick_err_master rnd s e t h
    cases e <;> first | rfl | exact absurd rfl (h1 _) | exact absurd rfl (h2 _)
  | panicBlockGetKey => rfl
  | panicUnknownOpcode c => rfl

/-- Pixel at column `cx` of row `cy` of the packed framebuffer, using the same
byte/bit addressing as `System::draw` and `System::screen`. -/
def pix (s : System) (cx cy : Nat) : Bool :=
  (s.screen (cy * 64 / 8 + cx / 8) >>> (7 - cx % 8)) &&& 1 != 0

/-- Bit `q` (MSB first) of one sprite row byte. -/
def srcBit (value q : Nat) : Bool :=
  (value >>> (7 - q)) &&& 1 != 0

lemma and_one_ne_eq_testBit (n k : Nat) : ((n >>> k) &&& 1 != 0) = n.testBit k := by
  unfold Nat.testBit
  rw [Nat.and_comm]

lemma toNat_shift_testBit_self (v : Bool) (k : Nat) : (v.toNat <<< k).testBit k = v := by
  cases v
  · simp [Nat.zero_shiftLeft, Nat.zero_testBit]
  · rw [show (Bool.toNat true) = 1 from rfl, Nat.one_shiftLeft]
    exact Nat.testBit_two_pow_self

lemma toNat_shift_testBit_ne (v : Bool) {k j : Nat} (h : j ≠ k) :
    (v.toNat <<< k).testBit j = false := by
  cases v
  · simp [Nat.zero_shiftLeft, Nat.zero_testBit]
  · rw [show (Bool.toNat true) = 1 from rfl, Nat.one_shiftLeft]
    exact Nat.testBit_two_pow_of_ne (fun hk => h hk.symm)

lemma draw_snd (s : System) {dx dy : Nat} (v : Bool) (hx : dx < 64) (hy : dy < 32) :
    (s.draw dx dy v).2 = (pix s dx dy && v) := by
  unfold System.draw
  simp only []
  rw [if_pos (by omega : dy * 64 / 8 + dx / 8 < 256)]
  rfl

lemma draw_pix (s : System) {dx dy cx cy : Nat} (v : Bool)
    (hx : dx < 64) (hy : dy < 32) (hcx : cx < 64) (hcy : cy < 32) :
    pix (s.draw dx dy v).1 cx cy =
      if cx = dx ∧ cy = dy then xor (pix s cx cy) v else pix s cx cy := by
  unfold System.draw
  simp only []
  rw [if_pos (by omega : dy * 64 / 8 + dx / 8 < 256)]
  unfold pix updF
  simp only []
  by_cases hidx : cy * 64 / 8 + cx / 8 = dy * 64 / 8 + dx / 8
  · rw [if_pos hidx]
    by_cases hbit : cx % 8 = dx % 8
    · have hcd : cx = dx ∧ cy = dy := by omega
      rw [if_pos hcd, hidx]
      rw [and_one_ne_eq_testBit, and_one_ne_eq_testBit, Nat.testBit_xor, hbit,
        toNat_shift_testBit_self]
    · have hne : ¬ (cx = dx ∧ cy = dy) := by
        rintro ⟨rfl, rfl⟩
        exact hbit rfl
      rw [if_neg hne, hidx]
      rw [and_one_ne_eq_testBit, and_one_ne_eq_testBit, Nat.testBit_xor,
        toNat_shift_testBit_ne v (by omega : 7 - cx % 8 ≠ 7 - dx % 8)]
      simp
  · have hne : ¬ (cx = dx ∧ cy = dy) := by
      rintro ⟨rfl, rfl⟩
      exact hidx rfl
    rw [if_neg hne, if_neg hidx]

lemma drawPixels_spec (x y byte value : Nat) : ∀ (k p : Nat) (s : System) (carry : Bool),
    8 - p ≤ k → p ≤ 8 →
    (∀ cx cy, cx < 64 → cy < 32 →
      (∀ q, p ≤ q → q < 8 → ¬(cx = (x + q) % 64 ∧ cy = (y + byte) % 32)) →
      pix (drawPixels x y byte value p s carry).1 cx cy = pix s cx cy) ∧
    (∀ q, p ≤ q → q < 8 →
      pix (drawPixels x y byte value p s carry).1 ((x + q) % 64) ((y + byte) % 32) =
        xor (pix s ((x + q) % 64) ((y + byte) % 32)) (srcBit value q)) ∧
    ((drawPixels x y byte value p s carry).2 = true ↔ carry = true ∨
      ∃ q, p ≤ q ∧ q < 8 ∧ pix s ((x + q) % 64) ((y + byte) % 32) = true ∧
        srcBit value q = true) := by
  intro k
  induction k with
  | zero =>
    intro p s carry hk hp8
    rw [drawPixels, dif_neg (by omega : ¬ p < 8)]
    refine ⟨fun cx cy _ _ _ => rfl, fun q hq1 hq2 => absurd hq2 (by omega), ?_⟩
    constructor
    · intro h
      exact Or.inl h
    · rintro (h | ⟨q, hq1, hq2, -, -⟩)
      · exact h
      · exact absurd hq2 (by omega)
  | succ k ih =>
    intro p s carry hk hp8
    by_cases hp : p < 8
    case neg =>
      rw [drawPixels, dif_neg hp]
      refine ⟨fun cx cy _ _ _ => rfl, fun q hq1 hq2 => absurd hq2 (by omega), ?_⟩
      constructor
      · intro h
        exact Or.inl h
      · rintro (h | ⟨q, hq1, hq2, -, -⟩)
        · exact h
        · exact absurd hq2 (by omega)
    case pos =>
      rw [drawPixels, dif_pos hp]
      simp only []
      have hxlt : (x + p) % 64 < 64 := Nat.mod_lt _ (by omega)
      have hylt : (y + byte) % 32 < 32 := Nat.mod_lt _ (by omega)
      obtain ⟨ihU, ihT, ihC⟩ := ih (p + 1)
        (s.draw ((x + p) % 64) ((y + byte) % 32) ((value >>> (7 - p)) &&& 1 != 0)).1
        (carry || (s.draw ((x + p) % 64) ((y + byte) % 32)
          ((value >>> (7 - p)) &&& 1 != 0)).2)
        (by omega) (by omega)
      refine ⟨?_, ?_, ?_⟩
      · intro cx cy hcx hcy hnc
        rw [ihU cx cy hcx hcy (fun q hq1 hq2 => hnc q (by omega) hq2)]
        rw [draw_pix s _ hxlt hylt hcx hcy]
        rw [if_neg (hnc p (le_refl p) hp)]
      · intro q hq1 hq2
        by_cases hqp : q = p
        · subst hqp
          rw [ihU _ _ hxlt hylt (fun q' hq1' hq2' => by
            rintro ⟨hcxe, -⟩
            omega)]
          rw [draw_pix s _ hxlt hylt hxlt hylt, if_pos ⟨rfl, rfl⟩]
          rfl
        · rw [ihT q (by omega) hq2]
          rw [draw_pix s _ hxlt hylt (Nat.mod_lt _ (by omega)) (Nat.mod_lt _ (by omega))]
          rw [if_neg (by
            rintro ⟨h1, -⟩
            omega)]
      · rw [ihC, Bool.or_eq_true, draw_snd s _ hxlt hylt, Bool.and_eq_true]
        constructor
        · rintro ((hc | ⟨hpix, hsrc⟩) | ⟨q, hq1, hq2, hpix, hsrc⟩)
          · exact Or.inl hc
          · exact Or.inr ⟨p, le_refl p, hp, hpix, hsrc⟩
          · refine Or.inr ⟨q, by omega, hq2, ?_, hsrc⟩
            rw [draw_pix s _ hxlt hylt (Nat.mod_lt _ (by omega))
              (Nat.mod_lt _ (by omega))] at hpix
            rw [if_neg (by
              rintro ⟨h1, -⟩
              omega)] at hpix
            exact hpix
        · rintro (hc | ⟨q, hq1, hq2, hpix, hsrc⟩)
          · exact Or.inl (Or.inl hc)
          · by_cases hqp : q = p
            · subst hqp
              exact Or.inl (Or.inr ⟨hpix, hsrc⟩)
            · refine Or.inr ⟨q, by omega, hq2, ?_, hsrc⟩
              rw [draw_pix s _ hxlt hylt (Nat.mod_lt _ (by omega))
                (Nat.mod_lt _ (by omega))]
              rw [if_neg (by
                rintro ⟨h1, -⟩
                omega)]
              exact hpix

lemma readMem_lt (s : System) {p : Nat} (h : p < 4096) :
    readMem s p = .ok (s.mem p) := if_pos h

lemma drawRows_spec (x y height : Nat) (hh : height ≤ 32) :
    ∀ (k b : Nat) (s : System) (carry : Bool), height - b ≤ k → b ≤ height →
    (∀ j, b ≤ j → j < height → (s.registers.index + j) % 65536 < 4096) →
    ∃ t c, drawRows x y height b s carry = .ok (t, c) ∧
      (∀ cx cy, cx < 64 → cy < 32 →
        (∀ q j, q < 8 → b ≤ j → j < height → ¬(cx = (x + q) % 64 ∧ cy = (y + j) % 32)) →
        pix t cx cy = pix s cx cy) ∧
      (∀ q j, q < 8 → b ≤ j → j < height →
        pix t ((x + q) % 64) ((y + j) % 32) =
          xor (pix s ((x + q) % 64) ((y + j) % 32))
              (srcBit (s.mem ((s.registers.index + j) % 65536)) q)) ∧
      (c = true ↔ carry = true ∨ ∃ q j, q < 8 ∧ b ≤ j ∧ j < height ∧
        pix s ((x + q) % 64) ((y + j) % 32) = true ∧
        srcBit (s.mem ((s.registers.index + j) % 65536)) q = true) ∧
      PresScreenOnly s t := by
  intro k
  induction k with
  | zero =>
    intro b s carry hk hbh hread
    rw [drawRows, dif_neg (by omega : ¬ b < height)]
    refine ⟨s, carry, rfl, fun cx cy _ _ _ => rfl,
      fun q j hq hj1 hj2 => absurd hj2 (by omega), ?_, presScreenOnly_refl s⟩
    constructor
    · intro h
      exact Or.inl h
    · rintro (h | ⟨q, j, hq, hj1, hj2, -, -⟩)
      · exact h
      · exact absurd hj2 (by omega)
  | succ k ih =>
    intro b s carry hk hbh hread
    by_cases hb : b < height
    case neg =>
      rw [drawRows, dif_neg hb]
      refine ⟨s, carry, rfl, fun cx cy _ _ _ => rfl,
        fun q j hq hj1 hj2 => absurd hj2 (by omega), ?_, presScreenOnly_refl s⟩
      constructor
      · intro h
        exact Or.inl h
      · rintro (h | ⟨q, j, hq, hj1, hj2, -, -⟩)
        · exact h
        · exact absurd hj2 (by omega)
    case pos =>
      rw [drawRows, dif_pos hb, readMem_lt s (hread b (le_refl b) hb)]
      simp only []
      obtain ⟨rU, rT, rC⟩ := drawPixels_spec x y b
        (s.mem ((s.registers.index + b) % 65536)) 8 0 s carry (by omega) (by omega)
      obtain ⟨rMem, rRegs, rStk, rKeys, rTmr⟩ := drawPixels_pres x y b
        (s.mem ((s.registers.index + b) % 65536)) 8 0 s carry (by omega)
      obtain ⟨t, c, heq, hU, hT, hC, hP⟩ := ih (b + 1)
        (drawPixels x y b (s.mem ((s.registers.index + b) % 65536)) 0 s carry).1
        (drawPixels x y b (s.mem ((s.registers.index + b) % 65536)) 0 s carry).2
        (by omega) (by omega)
        (fun j hj1 hj2 => by
          rw [rRegs]
          exact hread j (by omega) hj2)
      refine ⟨t, c, heq, ?_, ?_, ?_, ?_⟩
      · intro cx cy hcx hcy hnc
        rw [hU cx cy hcx hcy (fun q j hq hj1 hj2 => hnc q j hq (by omega) hj2)]
        exact rU cx cy hcx hcy (fun q _ hq2 => hnc q b hq2 (le_refl b) hb)
      · intro q j hq hj1 hj2
        by_cases hjb : j = b
        · subst hjb
          rw [hU _ _ (Nat.mod_lt _ (by omega)) (Nat.mod_lt _ (by omega))
            (fun q' j' hq' hj1' hj2' => by
              rintro ⟨-, hrow⟩
              omega)]
          exact rT q (Nat.zero_le q) hq
        · rw [hT q j hq (by omega) hj2, rMem, rRegs]
          rw [rU _ _ (Nat.mod_lt _ (by omega)) (Nat.mod_lt _ (by omega))
            (fun q' _ hq2' => by
              rintro ⟨-, hrow⟩
              omega)]
      · rw [hC, rC, rMem, rRegs]
        constructor
        · rintro ((hc | ⟨q, hq1, hq2, hpix, hsrc⟩) | ⟨q, j, hq, hj1, hj2, hpix, hsrc⟩)
          · exact Or.inl hc
          · exact Or.inr ⟨q, b, hq2, le_refl b, hb, hpix, hsrc⟩
          · refine Or.inr ⟨q, j, hq, by omega, hj2, ?_, hsrc⟩
            rw [rU _ _ (Nat.mod_lt _ (by omega)) (Nat.mod_lt _ (by omega))
              (fun q' _ hq2' => by
                rintro ⟨-, hrow⟩
                omega)] at hpix
            exact hpix
        · rintro (hc | ⟨q, j, hq, hj1, hj2, hpix, hsrc⟩)
          · exact Or.inl (Or.inl hc)
          · by_cases hjb : j = b
            · subst hjb
              exact Or.inl (Or.inr ⟨q, Nat.zero_le q, hq, hpix, hsrc⟩)
            · refine Or.inr ⟨q, j, hq, by omega, hj2, ?_, hsrc⟩
              rw [rU _ _ (Nat.mod_lt _ (by omega)) (Nat.mod_lt _ (by omega))
                (fun q' _ hq2' => by
                  rintro ⟨-, hrow⟩
                  omega)]
              exact hpix
      · exact presScreenOnly_trans ⟨rMem, rRegs, rStk, rKeys, rTmr⟩ hP

lemma pix_advance_carry (t : System) (v : Nat) (cx cy : Nat) :
    pix (advancePC { t with registers := t.registers.carry_set v }) cx cy = pix t cx cy := rfl

lemma vf_advance_carry (t : System) (v : Nat) :
    (advancePC { t with registers := t.registers.carry_set v }).registers.reg 15 = v := by
  simp [advancePC, Registers.carry_set, updF]

/-- C6: on `DRW Vx,Vy,N` with all `N` sprite bytes readable, `tick` succeeds;
every sprite pixel is XORed into the framebuffer at coordinates wrapped modulo
64 and 32 from the anchor, all other pixels are untouched, `VF` ends up 0 or
1, `VF = 1` exactly when some target pixel that was set before the draw meets
a set source pixel, and equivalently exactly when some pixel flips from on to
off. -/
theorem draw_xor_collision : ∀ (rnd : Nat) (s : System) (w : Nat),
    fetchWord s = some w → w &&& 0xF000 = 0xD000 →
    (∀ j, j < argN w → (s.registers.index + j) % 65536 < 4096) →
    ∃ s', tick rnd s = TickResult.ok s' ∧
      (∀ q j, q < 8 → j < argN w →
        pix s' ((s.registers.reg (argX w) + q) % 64)
            ((s.registers.reg (argY w) + j) % 32) =
          xor (pix s ((s.registers.reg (argX w) + q) % 64)
                ((s.registers.reg (argY w) + j) % 32))
              (srcBit (s.mem ((s.registers.index + j) % 65536)) q)) ∧
      (∀ cx cy, cx < 64 → cy < 32 →
        (∀ q j, q < 8 → j < argN w →
          ¬(cx = (s.registers.reg (argX w) + q) % 64 ∧
            cy = (s.registers.reg (argY w) + j) % 32)) →
        pix s' cx cy = pix s cx cy) ∧
      (s'.registers.reg 15 = 0 ∨ s'.registers.reg 15 = 1) ∧
      (s'.registers.reg 15 = 1 ↔ ∃ q j, q < 8 ∧ j < argN w ∧
        pix s ((s.registers.reg (argX w) + q) % 64)
            ((s.registers.reg (argY w) + j) % 32) = true ∧
        srcBit (s.mem ((s.registers.index + j) % 65536)) q = true) ∧
      (s'.registers.reg 15 = 1 ↔ ∃ cx cy, cx < 64 ∧ cy < 32 ∧
        pix s cx cy = true ∧ pix s' cx cy = false) := by
  intro rnd s w hf hw hread
  rw [tick_eq_exec rnd hf, tickExec_draw rnd s hw]
  unfold bodyDraw
  rw [read_lt s.registers (by have := argX_le w; omega),
    read_lt s.registers (by have := argY_le w; omega)]
  simp only []
  obtain ⟨t, c, heq, hU, hT, hC, hP⟩ := drawRows_spec (s.registers.reg (argX w))
    (s.registers.reg (argY w)) (argN w) (by have := argN_le w; omega)
    (argN w) 0 s false (by omega) (by omega) (fun j _ hj2 => hread j hj2)
  rw [heq]
  simp only []
  refine ⟨advancePC { t with registers := t.registers.carry_set c.toNat },
    rfl, ?_, ?_, ?_, ?_, ?_⟩
  · intro q j hq hj
    rw [pix_advance_carry]
    exact hT q j hq (Nat.zero_le j) hj
  · intro cx cy hcx hcy hnc
    rw [pix_advance_carry]
    exact hU cx cy hcx hcy (fun q j hq _ hj2 => hnc q j hq hj2)
  · rw [vf_advance_carry]
    cases c
    · exact Or.inl rfl
    · exact Or.inr rfl
  · rw [vf_advance_carry]
    constructor
    · intro h1
      have hc : c = true := by
        cases c
        · exact absurd h1 (by decide)
        · rfl
      rcases hC.mp hc with hfalse | ⟨q, j, hq, hj1, hj2, hpix, hsrc⟩
      · exact absurd hfalse (by decide)
      · exact ⟨q, j, hq, hj2, hpix, hsrc⟩
    · rintro ⟨q, j, hq, hj, hpix, hsrc⟩
      have hc : c = true := hC.mpr (Or.inr ⟨q, j, hq, Nat.zero_le j, hj, hpix, hsrc⟩)
      rw [hc]
      rfl
  · rw [vf_advance_carry]
    constructor
    · intro h1
      have hc : c = true := by
        cases c
        · exact absurd h1 (by decide)
        · rfl
      rcases hC.mp hc with hfalse | ⟨q, j, hq, hj1, hj2, hpix, hsrc⟩
      · exact absurd hfalse (by decide)
      · refine ⟨(s.registers.reg (argX w) + q) % 64,
          (s.registers.reg (argY w) + j) % 32,
          Nat.mod_lt _ (by omega), Nat.mod_lt _ (by omega), hpix, ?_⟩
        rw [pix_advance_carry, hT q j hq (Nat.zero_le j) hj2, hpix, hsrc]
        rfl
    · rintro ⟨cx, cy, hcx, hcy, hpre, hpost⟩
      rw [pix_advance_carry] at hpost
      by_cases hcov : ∃ q j, q < 8 ∧ j < argN w ∧
          cx = (s.registers.reg (argX w) + q) % 64 ∧
          cy = (s.registers.reg (argY w) + j) % 32
      · obtain ⟨q, j, hq, hj, rfl, rfl⟩ := hcov
        rw [hT q j hq (Nat.zero_le j) hj, hpre] at hpost
        have hsrc : srcBit (s.mem ((s.registers.index + j) % 65536)) q = true := by
          cases hsb : srcBit (s.mem ((s.registers.index + j) % 65536)) q
          · rw [hsb] at hpost
            exact absurd hpost (by decide)
          · rfl
        have hc : c = true := hC.mpr (Or.inr ⟨q, j, hq, Nat.zero_le j, hj, hpre, hsrc⟩)
        rw [hc]
        rfl
      · exfalso
        rw [hU cx cy hcx hcy (fun q j hq _ hj2 =>
          fun hand => hcov ⟨q, j, hq, hj2, hand.1, hand.2⟩), hpre] at hpost
        exact absurd hpost (by decide)

/-- Concrete machine for the C6 witness: `D011` (DRW V0,V1,1) with
`V0 = V1 = 10`, `I = 0x300` and sprite byte `0x80`. -/
def c6sys : System :=
  setReg (setReg (setIdx (setMem (setMem (setMem sys0 0x200 0xD0) 0x201 0x11)
    0x300 0x80) 0x300) 0 10) 1 10

/-- C6, witness: the draw theorem applied to the concrete single-row sprite
program, extracting that the tick succeeds with a boolean `VF`. -/
theorem draw_xor_collision_witness :
    ∃ s', tick 0 c6sys = TickResult.ok s' ∧
      (s'.registers.reg 15 = 0 ∨ s'.registers.reg 15 = 1) := by
  obtain ⟨s', h1, -, -, h4, -, -⟩ :=
    draw_xor_collision 0 c6sys 0xD011 rfl (by decide) (by decide)
  exact ⟨s', h1, h4⟩

end Chip8
